import Mathlib

/-!
Verification development for the AI team-monitor core: identity resolution
(`findUserInQuery`), the TTL data cache (`getCachedData` / `setCachedData`),
intent classification (`classifyIntent`), the per-repo fan-out fetches of the
GitHub client (`searchRecentCommitsByUser` / `searchActivePRsByUser`) and the
orchestrator (`handleAIQuery`).  External collaborators (the Gemini model, the
JIRA search API and the GitHub REST API) are modelled as oracle functions
passed in an environment record; timestamps are integer milliseconds; the
JavaScript exception channel is modelled with `Except String`.
-/

deriving instance DecidableEq for Except

namespace AiTeamMonitor

/-- `charsPrefix pat l` is true when `pat` is an initial segment of `l`
(character-by-character comparison). -/
def charsPrefix : List Char → List Char → Bool
  | [], _ => true
  | _ :: _, [] => false
  | a :: as, b :: bs => a == b && charsPrefix as bs

/-- `containsSub hay pat` is true when `pat` occurs contiguously inside `hay`. -/
def containsSub : List Char → List Char → Bool
  | [], pat => charsPrefix pat []
  | c :: t, pat => charsPrefix pat (c :: t) || containsSub t pat

/-- JS `s.includes(sub)`: substring test on strings. -/
def stringIncludes (s sub : String) : Bool :=
  containsSub s.toList sub.toList

/-- JS `s.toLowerCase()`, computed over the character list. -/
def toLowerStr (s : String) : String :=
  String.mk (s.toList.map Char.toLower)

/-- JS `s.toUpperCase()`, computed over the character list. -/
def toUpperStr (s : String) : String :=
  String.mk (s.toList.map Char.toUpper)

/-- JS `s.trim()`: strip leading and trailing whitespace, computed over the
character list. -/
def trimStr (s : String) : String :=
  String.mk (((s.toList.dropWhile Char.isWhitespace).reverse.dropWhile Char.isWhitespace).reverse)

/-- An identity record of the user-mapping table (query-parser module):
`{ jiraId, githubId }`. -/
structure User where
  jiraId : String
  githubId : String
deriving DecidableEq, Repr

/-- Identity of Praveenk Pandey (reached through two aliases). -/
def praveenUser : User := { jiraId := "Praveenk Pandey", githubId := "PraveenPandey987" }

/-- Identity reached through the e-mail alias (JIRA id is the e-mail itself). -/
def praveenEmailUser : User := { jiraId := "pp7007144435@gmail.com", githubId := "PraveenPandey987" }

/-- Identity of Mike Ross. -/
def mikeUser : User := { jiraId := "Mike Ross", githubId := "mikeross88" }

/-- Identity of Sarah Connor. -/
def sarahUser : User := { jiraId := "Sarah Connor", githubId := "sarah-connor" }

/-- Identity of Lisa Smith. -/
def lisaUser : User := { jiraId := "Lisa Smith", githubId := "lsmith" }

/-- The `userMapping` object of the query-parser module, in source (insertion)
order of its keys; JS `for (const key in ...)` iterates string keys in exactly
this order. -/
def userMapping : List (String × User) :=
  [("praveenk pandey", praveenUser),
   ("praveenpandey987", praveenUser),
   ("pp7007144435@gmail.com", praveenEmailUser),
   ("mike", mikeUser),
   ("sarah", sarahUser),
   ("lisa", lisaUser)]

/-- `findUserInQuery` of the query-parser module: lowercase the question and
return the value of the first mapping key that occurs as a substring. -/
def findUserInQuery (question : String) : Option User :=
  let normalizedQuery := toLowerStr question
  (userMapping.find? (fun p => stringIncludes normalizedQuery p.1)).map (fun p => p.2)

/-- A simplified JIRA issue as constructed by `searchActiveIssuesByUser`
(jira-client module); `lastUpdated` is modelled as a millisecond timestamp and
`relativeTime` is the dynamically-added display field, absent (`none`) on every
record the client builds. -/
structure Issue where
  key : String
  summary : String
  status : String
  issueType : String
  priority : String
  lastUpdated : Int
  link : String
  relativeTime : Option String := none
deriving DecidableEq, Repr

/-- A GitHub commit object (the fields the core reads): `message` stands for
`commit.commit.message`, `authorDate` for the optional chain
`commit.commit?.author?.date` (millisecond timestamp), `repo` is the
`repo: fullName` field added during fan-out, and `relativeTime` the
dynamically-added display field. -/
structure Commit where
  message : String
  authorDate : Option Int
  repo : String := ""
  relativeTime : Option String := none
deriving DecidableEq, Repr

/-- A GitHub pull-request object (the fields the core reads): `userLogin`
models `pr.user?.login`. -/
structure PullRequest where
  title : String
  userLogin : Option String
  state : String
  repo : String := ""
  relativeTime : Option String := none
deriving DecidableEq, Repr

/-- A value stored in the shared `dataCache` map: `{ data, timestamp }`. -/
structure CacheEntry (α : Type) where
  data : α
  timestamp : Int
deriving DecidableEq, Repr

/-- The `dataCache` JS `Map`, modelled as a partial function from string keys. -/
abbrev Cache (α : Type) := String → Option (CacheEntry α)

/-- A cache with no entries (fresh process state). -/
def emptyCache {α : Type} : Cache α := fun _ => none

/-- `CACHE_TTL = 5 * 60 * 1000` milliseconds. -/
def CACHE_TTL : Int := 5 * 60 * 1000

/-- `getCachedData` of the response-generator module: miss on an absent key;
an entry older than `CACHE_TTL` (strictly) is deleted and reported as a miss;
otherwise the stored data is returned and the map is untouched.  Returns the
looked-up payload together with the cache state after the read. -/
def getCachedData {α : Type} (now : Int) (c : Cache α) (cacheKey : String) :
    Option α × Cache α :=
  match c cacheKey with
  | none => (none, c)
  | some cached =>
    if now - cached.timestamp > CACHE_TTL then
      (none, fun k => if k = cacheKey then none else c k)
    else
      (some cached.data, c)

/-- `setCachedData` of the response-generator module: store the payload under
the key with the write-time timestamp, overwriting any previous entry. -/
def setCachedData {α : Type} (now : Int) (c : Cache α) (cacheKey : String) (data : α) :
    Cache α :=
  fun k => if k = cacheKey then some ⟨data, now⟩ else c k

/-- `getRelativeTime` of the response-generator module; `Int.fdiv` models
JS `Math.floor` of the division. -/
def getRelativeTime (now date : Int) : String :=
  let diffMs := now - date
  let diffDays := diffMs.fdiv (1000 * 60 * 60 * 24)
  let diffHours := diffMs.fdiv (1000 * 60 * 60)
  let diffMinutes := diffMs.fdiv (1000 * 60)
  if diffDays > 0 then toString diffDays ++ " day" ++ (if diffDays > 1 then "s" else "") ++ " ago"
  else if diffHours > 0 then toString diffHours ++ " hour" ++ (if diffHours > 1 then "s" else "") ++ " ago"
  else if diffMinutes > 0 then toString diffMinutes ++ " minute" ++ (if diffMinutes > 1 then "s" else "") ++ " ago"
  else "just now"

/-- JS `s.split(sep)` for a one-character separator, over character lists. -/
def splitOnChar (sep : Char) : List Char → List (List Char)
  | [] => [[]]
  | c :: t =>
    let rest := splitOnChar sep t
    if c = sep then [] :: rest
    else match rest with
      | [] => [[c]]
      | h :: t' => (c :: h) :: t'

/-- `fullName.split('/')` followed by `const [owner, repo] = ...` and the
falsy guard `if (!owner || !repo) continue`: the first two `/`-separated
components, provided both are non-empty. -/
def splitOwnerRepo (fullName : String) : Option (String × String) :=
  match (splitOnChar '/' fullName.toList).map String.mk with
  | owner :: repo :: _ => if owner = "" ∨ repo = "" then none else some (owner, repo)
  | _ => none

/-- `searchRecentCommitsByUser` of the github-client module.  The discovery
result (`getContributionRepos`) is passed in as `repoFullNames` and the
per-repo request `getRecentCommits(username, owner, repo)` as the oracle
`getCommits`; a failing per-repo request is caught and the repo skipped, and
each returned commit gains `repo: fullName`. -/
def searchRecentCommitsByUser
    (getCommits : String → String → String → Except String (List Commit))
    (username : String) (repoFullNames : List String) : List Commit :=
  match repoFullNames with
  | [] => []
  | fullName :: rest =>
    let tail := searchRecentCommitsByUser getCommits username rest
    match splitOwnerRepo fullName with
    | none => tail
    | some (owner, repo) =>
      match getCommits username owner repo with
      | .ok commits => commits.map (fun cm => { cm with repo := fullName }) ++ tail
      | .error _ => tail

/-- `getActivePullRequests` of the github-client module, given the repo's open
pull requests: filter by `pr.user?.login === username`. -/
def getActivePullRequests (openPRs : List PullRequest) (username : String) :
    List PullRequest :=
  openPRs.filter (fun pr => pr.userLogin == some username)

/-- `searchActivePRsByUser` of the github-client module; `listOpenPRs` is the
per-repo `GET /repos/.../pulls?state=open` request, whose result is filtered by
author as in `getActivePullRequests`; a failing per-repo request is caught and
the repo skipped, and each returned PR gains `repo: fullName`. -/
def searchActivePRsByUser
    (listOpenPRs : String → String → Except String (List PullRequest))
    (username : String) (repoFullNames : List String) : List PullRequest :=
  match repoFullNames with
  | [] => []
  | fullName :: rest =>
    let tail := searchActivePRsByUser listOpenPRs username rest
    match splitOwnerRepo fullName with
    | none => tail
    | some (owner, repo) =>
      match listOpenPRs owner repo with
      | .ok prs => (getActivePullRequests prs username).map (fun pr => { pr with repo := fullName }) ++ tail
      | .error _ => tail

/-- The payload stored in the shared `dataCache`: the JS `Map` is heterogeneous
and holds issue lists under `jira_*` keys, commit lists under `commits_*` keys
and PR lists under `prs_*` keys. -/
inductive CachePayload where
  | issues (xs : List Issue)
  | commits (xs : List Commit)
  | prs (xs : List PullRequest)
deriving DecidableEq, Repr

/-- Reading a `jira_*` entry back as an issue list.  The kind-prefixed key
scheme guarantees the other constructors never occur under such a key, so the
default branches are unreachable in every run of the orchestrator. -/
def CachePayload.toIssues : CachePayload → List Issue
  | .issues xs => xs
  | _ => []

/-- Reading a `commits_*` entry back as a commit list (see
`CachePayload.toIssues`). -/
def CachePayload.toCommits : CachePayload → List Commit
  | .commits xs => xs
  | _ => []

/-- Reading a `prs_*` entry back as a PR list (see `CachePayload.toIssues`). -/
def CachePayload.toPRs : CachePayload → List PullRequest
  | .prs xs => xs
  | _ => []

/-- The external collaborators of the orchestrator: the Gemini model in its two
roles (`classify` receives the intent prompt, `summarize` the final prompt) and
the three upstream fetch operations (`searchActiveIssuesByUser`,
`searchActivePRsByUser`, `searchRecentCommitsByUser`) keyed by the relevant
system-specific identifier. -/
structure Env where
  classify : String → Except String String
  summarize : String → Except String String
  jiraApi : String → Except String (List Issue)
  prsApi : String → Except String (List PullRequest)
  commitsApi : String → Except String (List Commit)

/-- Invocation counts observed during one `handleAIQuery` run: the three
upstream connector calls and the two roles of the Gemini collaborator. -/
structure Trace where
  jiraCalls : Nat := 0
  prCalls : Nat := 0
  commitCalls : Nat := 0
  classifyCalls : Nat := 0
  summaryCalls : Nat := 0
deriving DecidableEq, Repr

/-- The `dataContext` handed to the summarizer (lines 242-246 of the
response-generator): one optional section per data kind, present exactly when
the corresponding collection is non-empty (`hasJira` / `hasPRs` /
`hasCommits`). -/
structure DataContext where
  jiraSection : Option (List Issue)
  prSection : Option (List PullRequest)
  commitSection : Option (List Commit)
deriving DecidableEq, Repr

/-- Observable outcome of one `handleAIQuery` run: the returned string, the
cache state afterwards, the collaborator-call counts, and the data context
handed to the summarizer (`none` when the run never reached the final
summarization step). -/
structure QueryResult where
  answer : String
  cache : Cache CachePayload
  trace : Trace
  context : Option DataContext

/-- `fetchJiraData`: cache-checked fetch of active JIRA issues under the key
`jira_${jiraId}`.  The third component counts upstream calls (1 exactly when
the cache missed, also when the upstream call then failed). -/
def fetchJiraData (env : Env) (now : Int) (c : Cache CachePayload) (jiraId : String) :
    Except String (List Issue) × Cache CachePayload × Nat :=
  let cacheKey := "jira_" ++ jiraId
  match getCachedData now c cacheKey with
  | (some p, c₁) => (.ok p.toIssues, c₁, 0)
  | (none, c₁) =>
    match env.jiraApi jiraId with
    | .ok data => (.ok data, setCachedData now c₁ cacheKey (.issues data), 1)
    | .error e => (.error e, c₁, 1)

/-- `fetchCommitsData`: cache-checked fetch of recent commits under the key
`commits_${githubId}`. -/
def fetchCommitsData (env : Env) (now : Int) (c : Cache CachePayload) (githubId : String) :
    Except String (List Commit) × Cache CachePayload × Nat :=
  let cacheKey := "commits_" ++ githubId
  match getCachedData now c cacheKey with
  | (some p, c₁) => (.ok p.toCommits, c₁, 0)
  | (none, c₁) =>
    match env.commitsApi githubId with
    | .ok data => (.ok data, setCachedData now c₁ cacheKey (.commits data), 1)
    | .error e => (.error e, c₁, 1)

/-- `fetchPRsData`: cache-checked fetch of active PRs under the key
`prs_${githubId}`. -/
def fetchPRsData (env : Env) (now : Int) (c : Cache CachePayload) (githubId : String) :
    Except String (List PullRequest) × Cache CachePayload × Nat :=
  let cacheKey := "prs_" ++ githubId
  match getCachedData now c cacheKey with
  | (some p, c₁) => (.ok p.toPRs, c₁, 0)
  | (none, c₁) =>
    match env.prsApi githubId with
    | .ok data => (.ok data, setCachedData now c₁ cacheKey (.prs data), 1)
    | .error e => (.error e, c₁, 1)

/-- The constrained intent prompt built around the question (rule and example
lines with no effect on control flow are abbreviated). -/
def intentPrompt (question : String) : String :=
  "Analyze the following question and determine what type of information the user wants. Respond with ONLY ONE of these words: JIRA, COMMITS, PRS, or FULL_SUMMARY. Question: \"" ++ question ++ "\" Response (one word only):"

/-- The closed set of valid intent labels. -/
def intentSet : List String := ["JIRA", "COMMITS", "PRS", "FULL_SUMMARY"]

/-- `classifyIntent` of the response-generator module: ask the Gemini oracle,
normalize with `trim().toUpperCase()`, validate against the closed label set,
and fall back to `FULL_SUMMARY` on an unrecognized label or an oracle error. -/
def classifyIntent (env : Env) (question : String) : String :=
  match env.classify (intentPrompt question) with
  | .ok text =>
    let intent := toUpperStr (trimStr text)
    if intent ∈ intentSet then intent else "FULL_SUMMARY"
  | .error _ => "FULL_SUMMARY"

/-- Outcome of the intent-driven fetch step (Step 3 of `handleAIQuery`): the
three collections (unfetched kinds stay `[]`), or the first upstream error;
plus the cache state and the per-connector upstream-call counts. -/
structure FetchOut where
  result : Except String (List Issue × List PullRequest × List Commit)
  cache : Cache CachePayload
  jiraCalls : Nat := 0
  prCalls : Nat := 0
  commitCalls : Nat := 0

/-- Step 3 of `handleAIQuery`: fetch selectively based on intent.  For
`FULL_SUMMARY` the source issues the three fetches with `Promise.all`; the
single-threaded cooperative model is embedded as the JIRA, PRs, commits
sequence (the three cache keys are disjoint, so the interleaving is
unobservable). -/
def fetchPhase (env : Env) (now : Int) (c : Cache CachePayload) (intent : String)
    (user : User) : FetchOut :=
  if intent = "JIRA" then
    match fetchJiraData env now c user.jiraId with
    | (.ok xs, c₁, n) => { result := .ok (xs, [], []), cache := c₁, jiraCalls := n }
    | (.error e, c₁, n) => { result := .error e, cache := c₁, jiraCalls := n }
  else if intent = "COMMITS" then
    match fetchCommitsData env now c user.githubId with
    | (.ok xs, c₁, n) => { result := .ok ([], [], xs), cache := c₁, commitCalls := n }
    | (.error e, c₁, n) => { result := .error e, cache := c₁, commitCalls := n }
  else if intent = "PRS" then
    match fetchPRsData env now c user.githubId with
    | (.ok xs, c₁, n) => { result := .ok ([], xs, []), cache := c₁, prCalls := n }
    | (.error e, c₁, n) => { result := .error e, cache := c₁, prCalls := n }
  else
    match fetchJiraData env now c user.jiraId with
    | (.error e, c₁, n₁) => { result := .error e, cache := c₁, jiraCalls := n₁ }
    | (.ok js, c₁, n₁) =>
      match fetchPRsData env now c₁ user.githubId with
      | (.error e, c₂, n₂) =>
        { result := .error e, cache := c₂, jiraCalls := n₁, prCalls := n₂ }
      | (.ok ps, c₂, n₂) =>
        match fetchCommitsData env now c₂ user.githubId with
        | (.error e, c₃, n₃) =>
          { result := .error e, cache := c₃, jiraCalls := n₁, prCalls := n₂, commitCalls := n₃ }
        | (.ok cs, c₃, n₃) =>
          { result := .ok (js, ps, cs), cache := c₃, jiraCalls := n₁, prCalls := n₂, commitCalls := n₃ }

/-- The early-return message when no mapping alias occurs in the question. -/
def unknownUserMessage : String :=
  "I\x27m sorry, I couldn\x27t find a known user (from JIRA or GitHub) in your query. Please include a name I recognize."

/-- The templated no-activity message (Step 4 of `handleAIQuery`). -/
def noActivityMessage (user : User) : String :=
  "I found " ++ user.jiraId ++ " (JIRA) / " ++ user.githubId ++ " (GitHub), but they have no recent activity based on your query."

/-- The catch block of `handleAIQuery`: map the error message by substring
inspection, in source order of the checks. -/
def handleQueryError (msg : String) : String :=
  if stringIncludes msg "404" then
    "Sorry, I couldn\x27t find one or more repositories. The user might not have access to some repos."
  else if stringIncludes msg "401" || stringIncludes msg "403" then
    "Authentication error: Please check your API credentials in the .env file."
  else if stringIncludes msg "rate limit" then
    "API rate limit exceeded. Please try again in a few minutes."
  else
    "An error occurred while fetching data: " ++ msg

/-- Step 5 decoration of an issue: spread plus
`relativeTime: getRelativeTime(issue.lastUpdated)`. -/
def decorateIssue (now : Int) (issue : Issue) : Issue :=
  { issue with relativeTime := some (getRelativeTime now issue.lastUpdated) }

/-- The relative-time string attached to a commit:
`commit.commit?.author?.date ? getRelativeTime(...) : 'unknown'`. -/
def commitRelTime (now : Int) (authorDate : Option Int) : String :=
  match authorDate with
  | some d => getRelativeTime now d
  | none => "unknown"

/-- Step 5 decoration of a commit. -/
def decorateCommit (now : Int) (cm : Commit) : Commit :=
  { cm with relativeTime := some (commitRelTime now cm.authorDate) }

/-- Steps 6-7: the sections of `dataContext`, each present exactly when its
collection is non-empty. -/
def buildDataContext (jiraIssues : List Issue) (githubPRs : List PullRequest)
    (githubCommits : List Commit) : DataContext :=
  { jiraSection := if jiraIssues.length > 0 then some jiraIssues else none,
    prSection := if githubPRs.length > 0 then some githubPRs else none,
    commitSection := if githubCommits.length > 0 then some githubCommits else none }

/-- Rendering of an optional display field inside `JSON.stringify` output. -/
def renderOpt : Option String → String
  | some s => s
  | none => ""

/-- Field-by-field rendering of an issue (stand-in for `JSON.stringify`). -/
def renderIssue (i : Issue) : String :=
  i.key ++ " | " ++ i.summary ++ " | " ++ i.status ++ " | " ++ i.issueType ++ " | " ++
    i.priority ++ " | " ++ toString i.lastUpdated ++ " | " ++ i.link ++ " | " ++
    renderOpt i.relativeTime

/-- Field-by-field rendering of a pull request (stand-in for `JSON.stringify`). -/
def renderPR (pr : PullRequest) : String :=
  pr.title ++ " | " ++ renderOpt pr.userLogin ++ " | " ++ pr.state ++ " | " ++ pr.repo ++
    " | " ++ renderOpt pr.relativeTime

/-- Field-by-field rendering of a commit (stand-in for `JSON.stringify`). -/
def renderCommit (cm : Commit) : String :=
  cm.message ++ " | " ++ toString cm.authorDate ++ " | " ++ cm.repo ++ " | " ++
    renderOpt cm.relativeTime

/-- The `dataContext` template string: one labelled block per present section. -/
def renderContext (ctx : DataContext) : String :=
  (match ctx.jiraSection with
   | some xs => "--- JIRA DATA (Active Issues) ---\n" ++ String.intercalate "\n" (xs.map renderIssue) ++ "\n"
   | none => "") ++
  (match ctx.prSection with
   | some xs => "--- GITHUB DATA (Active Pull Requests) ---\n" ++ String.intercalate "\n" (xs.map renderPR) ++ "\n"
   | none => "") ++
  (match ctx.commitSection with
   | some xs => "--- GITHUB DATA (Recent Commits) ---\n" ++ String.intercalate "\n" (xs.map renderCommit) ++ "\n"
   | none => "")

/-- The final summarization prompt (Step 7; the fixed instruction and example
lines are abbreviated, the question, user ids and data context are kept). -/
def summaryPrompt (question : String) (user : User) (ctx : DataContext) : String :=
  "You are a helpful AI team assistant. A manager asked a question about a team member. Question: \"" ++ question ++ "\" User: " ++ user.jiraId ++ " (JIRA) / " ++ user.githubId ++ " (GitHub)\n" ++ renderContext ctx

/-- `handleAIQuery` of the response-generator module: resolve the identity,
classify the intent (one Gemini call), fetch selectively with caching, answer
from the template on an identity miss or on an all-empty result, otherwise
decorate issues and commits with `relativeTime`, build the scoped data context
and hand it to the summarizer (one more Gemini call); the catch block maps any
upstream or summarizer error through `handleQueryError`. -/
def handleAIQuery (env : Env) (now : Int) (c : Cache CachePayload) (question : String) :
    QueryResult :=
  match findUserInQuery question with
  | none => { answer := unknownUserMessage, cache := c, trace := {}, context := none }
  | some user =>
    let intent := classifyIntent env question
    let f := fetchPhase env now c intent user
    let baseTrace : Trace :=
      { classifyCalls := 1, jiraCalls := f.jiraCalls, prCalls := f.prCalls,
        commitCalls := f.commitCalls }
    match f.result with
    | .error e =>
      { answer := handleQueryError e, cache := f.cache, trace := baseTrace, context := none }
    | .ok (jiraIssues, githubPRs, githubCommits) =>
      if jiraIssues.length = 0 ∧ githubPRs.length = 0 ∧ githubCommits.length = 0 then
        { answer := noActivityMessage user, cache := f.cache, trace := baseTrace, context := none }
      else
        let jiraIssues₂ := if jiraIssues.length > 0 then jiraIssues.map (decorateIssue now) else jiraIssues
        let githubCommits₂ := if githubCommits.length > 0 then githubCommits.map (decorateCommit now) else githubCommits
        let dataContext := buildDataContext jiraIssues₂ githubPRs githubCommits₂
        match env.summarize (summaryPrompt question user dataContext) with
        | .ok text =>
          { answer := text, cache := f.cache,
            trace := { baseTrace with summaryCalls := 1 }, context := some dataContext }
        | .error e =>
          { answer := handleQueryError e, cache := f.cache,
            trace := { baseTrace with summaryCalls := 1 }, context := some dataContext }

section Helpers

/-- `classifyIntent` can only produce a label of the closed set. -/
lemma classifyIntent_mem (env : Env) (q : String) : classifyIntent env q ∈ intentSet := by
  unfold classifyIntent
  cases env.classify (intentPrompt q) with
  | error e => simp [intentSet]
  | ok t =>
    simp only []
    split
    · assumption
    · simp [intentSet]

/-- `find?` over a split list, when the head of the second part matches and
every earlier match carries the same value. -/
lemma find?_value_of_split (pred : String × User → Bool) (l₁ l₂ : List (String × User))
    (k : String) (u : User) (ha : pred (k, u) = true)
    (h₁ : ∀ x ∈ l₁, pred x = true → x.2 = u) :
    ((l₁ ++ (k, u) :: l₂).find? pred).map (fun p => p.2) = some u := by
  induction l₁ with
  | nil => simp [List.find?_cons_of_pos _ ha]
  | cons x xs ih =>
    by_cases hx : pred x = true
    · simp [List.find?_cons_of_pos _ hx, h₁ x (by simp) hx]
    · rw [List.cons_append, List.find?_cons_of_neg _ (by simpa using hx)]
      exact ih (fun y hy hpy => h₁ y (by simp [hy]) hpy)

end Helpers

/-- C3: for every `(kind, key)` pair — keys being the kind-prefixed strings —
`getCachedData` misses on a key with no entry, misses on an entry written more
than `CACHE_TTL` before the read and deletes it as a side effect of the read,
and a read after a `setCachedData` of the same key within the TTL window
returns exactly the payload that was written. -/
theorem cache_get_put_spec {α : Type} (c : Cache α) (key : String)
    (tPut tGet : Int) (payload : α) :
    (c key = none → (getCachedData tGet c key).1 = none) ∧
    (∀ e, c key = some e → tGet - e.timestamp > CACHE_TTL →
      (getCachedData tGet c key).1 = none ∧ (getCachedData tGet c key).2 key = none) ∧
    (tGet - tPut ≤ CACHE_TTL →
      (getCachedData tGet (setCachedData tPut c key payload) key).1 = some payload) := by
  refine ⟨fun h => by simp [getCachedData, h], fun e he ht => ?_, fun h => ?_⟩
  · constructor
    · simp [getCachedData, he, ht]
    · simp [getCachedData, he, ht]
  · simp [getCachedData, setCachedData, not_lt.mpr h]

/-- Witness for C3 at concrete inputs: a never-written key misses, an entry
older than the TTL misses and is deleted, and a fresh write is read back. -/
theorem cache_get_put_spec_witness :
    (getCachedData 1000 (emptyCache (α := List Nat)) "jira_k").1 = none ∧
    ((getCachedData 600001 (setCachedData 0 (emptyCache (α := List Nat)) "jira_k" [7]) "jira_k").1 = none ∧
      (getCachedData 600001 (setCachedData 0 (emptyCache (α := List Nat)) "jira_k" [7]) "jira_k").2 "jira_k" = none) ∧
    (getCachedData 1000 (setCachedData 0 (emptyCache (α := List Nat)) "jira_k" [7]) "jira_k").1 = some [7] :=
  ⟨(cache_get_put_spec emptyCache "jira_k" 0 1000 [7]).1 rfl,
   (cache_get_put_spec (setCachedData 0 emptyCache "jira_k" [7]) "jira_k" 0 600001 [7]).2.1
      ⟨[7], 0⟩ (by decide) (by decide),
   (cache_get_put_spec emptyCache "jira_k" 0 1000 [7]).2.2 (by decide)⟩

/-- C7: `classifyIntent` always returns a member of the closed intent set; on
an oracle failure it returns `FULL_SUMMARY`, and on an oracle output whose
normalization is not a recognized label it returns `FULL_SUMMARY`; in both
cases the failure is absorbed, never propagated (the function is total and
returns a plain label). -/
theorem classifier_closed_set_spec (env : Env) (q : String) :
    classifyIntent env q ∈ intentSet ∧
    (∀ e, env.classify (intentPrompt q) = .error e → classifyIntent env q = "FULL_SUMMARY") ∧
    (∀ t, env.classify (intentPrompt q) = .ok t → toUpperStr (trimStr t) ∉ intentSet →
      classifyIntent env q = "FULL_SUMMARY") := by
  refine ⟨classifyIntent_mem env q, fun e he => ?_, fun t ht hmem => ?_⟩
  · simp [classifyIntent, he]
  · simp [classifyIntent, ht, hmem]

/-- Witness for C7: a failing oracle and an oracle answering an unrecognized
label both yield `FULL_SUMMARY`. -/
theorem classifier_closed_set_spec_witness :
    classifyIntent
      { classify := fun _ => .error "network timeout",
        summarize := fun _ => .ok "", jiraApi := fun _ => .ok [],
        prsApi := fun _ => .ok [], commitsApi := fun _ => .ok [] } "what is mike doing" =
      "FULL_SUMMARY" ∧
    classifyIntent
      { classify := fun _ => .ok "BANANAS",
        summarize := fun _ => .ok "", jiraApi := fun _ => .ok [],
        prsApi := fun _ => .ok [], commitsApi := fun _ => .ok [] } "what is mike doing" =
      "FULL_SUMMARY" :=
  ⟨(classifier_closed_set_spec _ "what is mike doing").2.1 "network timeout" rfl,
   (classifier_closed_set_spec _ "what is mike doing").2.2 "BANANAS" rfl (by decide)⟩

/-- Counterexample to C4 as stated: the text
`"What are Mike and Praveenk Pandey doing"` contains the known alias `"mike"`
(case-insensitively), which maps to `mikeUser`, yet resolution returns
`praveenUser`, because the alias `"praveenk pandey"` is registered earlier in
the mapping; so "resolving any text that contains alias `a` returns the
identity of `a`" fails. -/
theorem resolver_alias_counterexample :
    stringIncludes (toLowerStr "What are Mike and Praveenk Pandey doing") "mike" = true ∧
    ("mike", mikeUser) ∈ userMapping ∧
    findUserInQuery "What are Mike and Praveenk Pandey doing" = some praveenUser ∧
    praveenUser ≠ mikeUser :=
  ⟨by decide, by decide, by decide, by decide⟩

/-- C4 (amended): resolving a text that contains the known alias `k` of
identity `u` (lower-cased matching, the table's keys being lower case) returns
`u`, provided every alias registered earlier in the mapping that also occurs
in the text maps to `u` as well; a text containing no known alias resolves to
`none`; and every successfully resolved identity has both system ids
non-empty. -/
theorem resolver_alias_spec :
    (∀ q (l₁ l₂ : List (String × User)) k u, userMapping = l₁ ++ (k, u) :: l₂ →
      stringIncludes (toLowerStr q) k = true →
      (∀ p ∈ l₁, stringIncludes (toLowerStr q) p.1 = true → p.2 = u) →
      findUserInQuery q = some u) ∧
    (∀ q, (∀ p ∈ userMapping, stringIncludes (toLowerStr q) p.1 = false) →
      findUserInQuery q = none) ∧
    (∀ q u, findUserInQuery q = some u → u.jiraId ≠ "" ∧ u.githubId ≠ "") := by
  refine ⟨fun q l₁ l₂ k u hsplit hk hearlier => ?_, fun q hnone => ?_, fun q u h => ?_⟩
  · unfold findUserInQuery
    rw [hsplit]
    exact find?_value_of_split _ l₁ l₂ k u hk hearlier
  · unfold findUserInQuery
    have hfind : userMapping.find? (fun p => stringIncludes (toLowerStr q) p.1) = none :=
      List.find?_eq_none.mpr (fun p hp => by simp [hnone p hp])
    simp [hfind]
  · unfold findUserInQuery at h
    cases hf : userMapping.find? (fun p => stringIncludes (toLowerStr q) p.1) with
    | none => simp [hf] at h
    | some pr =>
      have hmem : pr ∈ userMapping := List.mem_of_find?_eq_some hf
      simp only [hf, Option.map_some', Option.some.injEq] at h
      subst h
      simp only [userMapping, List.mem_cons, List.not_mem_nil, or_false] at hmem
      rcases hmem with h' | h' | h' | h' | h' | h' <;> subst h' <;> decide

/-- Witness for C4 (amended) at concrete inputs: the alias
`"praveenpandey987"` resolves (the earlier alias does not occur in the text),
an alias-free text resolves to `none`, and the resolved identity has both ids
non-empty. -/
theorem resolver_alias_spec_witness :
    findUserInQuery "praveenpandey987 pushed a fix" = some praveenUser ∧
    findUserInQuery "unknown stranger" = none ∧
    (praveenUser.jiraId ≠ "" ∧ praveenUser.githubId ≠ "") :=
  ⟨resolver_alias_spec.1 "praveenpandey987 pushed a fix"
      [("praveenk pandey", praveenUser)]
      [("pp7007144435@gmail.com", praveenEmailUser), ("mike", mikeUser),
       ("sarah", sarahUser), ("lisa", lisaUser)]
      "praveenpandey987" praveenUser rfl (by decide) (by decide),
   resolver_alias_spec.2.1 "unknown stranger" (by decide),
   resolver_alias_spec.2.2 "praveenpandey987 pushed a fix" praveenUser (by decide)⟩

/-- C10: `findUserInQuery` is a pure function of the question text, and when
several known aliases occur in the text the winner is the alias that comes
first in the mapping table's registration order — the positions of the aliases
inside the text are irrelevant: the result is determined by `userMapping`
order alone. -/
theorem resolver_registration_order (q : String) (l₁ l₂ : List (String × User))
    (k : String) (u : User)
    (hsplit : userMapping = l₁ ++ (k, u) :: l₂)
    (hk : stringIncludes (toLowerStr q) k = true)
    (hearlier : ∀ p ∈ l₁, stringIncludes (toLowerStr q) p.1 = false) :
    findUserInQuery q = some u := by
  unfold findUserInQuery
  rw [hsplit]
  exact find?_value_of_split _ l₁ l₂ k u hk
    (fun x hx hpx => absurd (hearlier x hx) (by simp [hpx]))

/-- Witness for C10: in `"are sarah and mike busy"` the alias `"mike"` occurs
after `"sarah"` in the text but is registered first, so Mike wins. -/
theorem resolver_registration_order_witness :
    findUserInQuery "are sarah and mike busy" = some mikeUser :=
  resolver_registration_order "are sarah and mike busy"
    [("praveenk pandey", praveenUser), ("praveenpandey987", praveenUser),
     ("pp7007144435@gmail.com", praveenEmailUser)]
    [("sarah", sarahUser), ("lisa", lisaUser)]
    "mike" mikeUser rfl (by decide) (by decide)

section FanOutHelpers

/-- One unfolding step of the commit fan-out loop. -/
lemma searchCommits_cons (g : String → String → String → Except String (List Commit))
    (u fullName : String) (rest : List String) :
    searchRecentCommitsByUser g u (fullName :: rest) =
      (match splitOwnerRepo fullName with
       | none => searchRecentCommitsByUser g u rest
       | some (o, r) =>
         match g u o r with
         | .ok cs => cs.map (fun cm => { cm with repo := fullName }) ++ searchRecentCommitsByUser g u rest
         | .error _ => searchRecentCommitsByUser g u rest) := rfl

/-- One unfolding step of the PR fan-out loop. -/
lemma searchPRs_cons (g : String → String → Except String (List PullRequest))
    (u fullName : String) (rest : List String) :
    searchActivePRsByUser g u (fullName :: rest) =
      (match splitOwnerRepo fullName with
       | none => searchActivePRsByUser g u rest
       | some (o, r) =>
         match g o r with
         | .ok prs => (getActivePullRequests prs u).map (fun pr => { pr with repo := fullName }) ++ searchActivePRsByUser g u rest
         | .error _ => searchActivePRsByUser g u rest) := rfl

/-- The commit fan-out over a list in which every repo name splits and every
per-repo request succeeds. -/
lemma searchCommits_all_ok (g : String → String → String → Except String (List Commit))
    (u : String) (l : List String) (own rep : String → String) (res : String → List Commit)
    (hsplit : ∀ r ∈ l, splitOwnerRepo r = some (own r, rep r))
    (hok : ∀ r ∈ l, g u (own r) (rep r) = .ok (res r)) :
    searchRecentCommitsByUser g u l =
      l.flatMap (fun r => (res r).map (fun cm => { cm with repo := r })) := by
  induction l with
  | nil => rfl
  | cons a t ih =>
    rw [searchCommits_cons]
    simp only [hsplit a (by simp), hok a (by simp)]
    rw [ih (fun r hr => hsplit r (by simp [hr])) (fun r hr => hok r (by simp [hr]))]
    simp

/-- The PR fan-out over a list in which every repo name splits and every
per-repo request succeeds. -/
lemma searchPRs_all_ok (g : String → String → Except String (List PullRequest))
    (u : String) (l : List String) (own rep : String → String)
    (res : String → List PullRequest)
    (hsplit : ∀ r ∈ l, splitOwnerRepo r = some (own r, rep r))
    (hok : ∀ r ∈ l, g (own r) (rep r) = .ok (res r)) :
    searchActivePRsByUser g u l =
      l.flatMap (fun r => (getActivePullRequests (res r) u).map (fun pr => { pr with repo := r })) := by
  induction l with
  | nil => rfl
  | cons a t ih =>
    rw [searchPRs_cons]
    simp only [hsplit a (by simp), hok a (by simp)]
    rw [ih (fun r hr => hsplit r (by simp [hr])) (fun r hr => hok r (by simp [hr]))]
    simp

/-- The commit fan-out skips a repo whose per-repo request fails. -/
lemma searchCommits_skip (g : String → String → String → Except String (List Commit))
    (u bad : String) (rest : List String) (bo br e : String)
    (hsplit : splitOwnerRepo bad = some (bo, br)) (hbad : g u bo br = .error e) :
    searchRecentCommitsByUser g u (bad :: rest) = searchRecentCommitsByUser g u rest := by
  rw [searchCommits_cons]
  simp only [hsplit, hbad]

/-- The PR fan-out skips a repo whose per-repo request fails. -/
lemma searchPRs_skip (g : String → String → Except String (List PullRequest))
    (u bad : String) (rest : List String) (bo br e : String)
    (hsplit : splitOwnerRepo bad = some (bo, br)) (hbad : g bo br = .error e) :
    searchActivePRsByUser g u (bad :: rest) = searchActivePRsByUser g u rest := by
  rw [searchPRs_cons]
  simp only [hsplit, hbad]

/-- The commit fan-out distributes over list append. -/
lemma searchCommits_append (g : String → String → String → Except String (List Commit))
    (u : String) (l₁ l₂ : List String) :
    searchRecentCommitsByUser g u (l₁ ++ l₂) =
      searchRecentCommitsByUser g u l₁ ++ searchRecentCommitsByUser g u l₂ := by
  induction l₁ with
  | nil => rfl
  | cons a t ih =>
    rw [List.cons_append, searchCommits_cons, searchCommits_cons]
    cases h : splitOwnerRepo a with
    | none => simp only [h]; exact ih
    | some pr =>
      obtain ⟨o, r⟩ := pr
      cases hg : g u o r with
      | ok cs => simp only [h, hg]; rw [ih, List.append_assoc]
      | error e => simp only [h, hg]; exact ih

/-- The PR fan-out distributes over list append. -/
lemma searchPRs_append (g : String → String → Except String (List PullRequest))
    (u : String) (l₁ l₂ : List String) :
    searchActivePRsByUser g u (l₁ ++ l₂) =
      searchActivePRsByUser g u l₁ ++ searchActivePRsByUser g u l₂ := by
  induction l₁ with
  | nil => rfl
  | cons a t ih =>
    rw [List.cons_append, searchPRs_cons, searchPRs_cons]
    cases h : splitOwnerRepo a with
    | none => simp only [h]; exact ih
    | some pr =>
      obtain ⟨o, r⟩ := pr
      cases hg : g o r with
      | ok prs => simp only [h, hg]; rw [ih, List.append_assoc]
      | error e => simp only [h, hg]; exact ih

end FanOutHelpers

/-- C5: in a fan-out fetch of commits (and likewise of PRs) over discovered
repos `l₁ ++ bad :: l₂` where the single per-repo request for `bad` fails and
every other one succeeds, the aggregate contains exactly the records of the
succeeding repos — each tagged with its repo name — in discovery order, the
failing repo's records are omitted, and nothing is raised (both functions are
total and return a plain list). -/
theorem fanout_single_failure_spec
    (getCommits : String → String → String → Except String (List Commit))
    (listOpenPRs : String → String → Except String (List PullRequest))
    (u : String) (l₁ l₂ : List String) (bad bo br eC eP : String)
    (own rep : String → String)
    (cOk : String → List Commit) (pOk : String → List PullRequest)
    (hbadSplit : splitOwnerRepo bad = some (bo, br))
    (hbadC : getCommits u bo br = .error eC)
    (hbadP : listOpenPRs bo br = .error eP)
    (hsplit : ∀ r ∈ l₁ ++ l₂, splitOwnerRepo r = some (own r, rep r))
    (hokC : ∀ r ∈ l₁ ++ l₂, getCommits u (own r) (rep r) = .ok (cOk r))
    (hokP : ∀ r ∈ l₁ ++ l₂, listOpenPRs (own r) (rep r) = .ok (pOk r)) :
    searchRecentCommitsByUser getCommits u (l₁ ++ bad :: l₂) =
      (l₁ ++ l₂).flatMap (fun r => (cOk r).map (fun cm => { cm with repo := r })) ∧
    searchActivePRsByUser listOpenPRs u (l₁ ++ bad :: l₂) =
      (l₁ ++ l₂).flatMap
        (fun r => (getActivePullRequests (pOk r) u).map (fun pr => { pr with repo := r })) := by
  have hs₁ : ∀ r ∈ l₁, splitOwnerRepo r = some (own r, rep r) :=
    fun r hr => hsplit r (by simp [hr])
  have hs₂ : ∀ r ∈ l₂, splitOwnerRepo r = some (own r, rep r) :=
    fun r hr => hsplit r (by simp [hr])
  constructor
  · rw [searchCommits_append, searchCommits_skip getCommits u bad l₂ bo br eC hbadSplit hbadC]
    rw [searchCommits_all_ok getCommits u l₁ own rep cOk hs₁
          (fun r hr => hokC r (by simp [hr])),
        searchCommits_all_ok getCommits u l₂ own rep cOk hs₂
          (fun r hr => hokC r (by simp [hr]))]
    simp
  · rw [searchPRs_append, searchPRs_skip listOpenPRs u bad l₂ bo br eP hbadSplit hbadP]
    rw [searchPRs_all_ok listOpenPRs u l₁ own rep pOk hs₁
          (fun r hr => hokP r (by simp [hr])),
        searchPRs_all_ok listOpenPRs u l₂ own rep pOk hs₂
          (fun r hr => hokP r (by simp [hr]))]
    simp

/-- A commit returned by the first repo of the fan-out witness. -/
def cmFirst : Commit := { message := "fix parser", authorDate := some 100 }

/-- A commit returned by the last repo of the fan-out witness. -/
def cmLast : Commit := { message := "add tests", authorDate := none }

/-- A PR authored by the queried user in the fan-out witness. -/
def prByUser : PullRequest := { title := "Add feature", userLogin := some "mike", state := "open" }

/-- A PR authored by someone else in the fan-out witness. -/
def prByOther : PullRequest := { title := "Other work", userLogin := some "lisa", state := "open" }

/-- Concrete per-repo commit oracle for the fan-out witness: the repo `rbad`
fails with a 404, the others succeed. -/
def getCommitsW : String → String → String → Except String (List Commit) :=
  fun _ _ r => if r = "rbad" then .error "404 not found"
    else if r = "r1" then .ok [cmFirst] else .ok [cmLast]

/-- Concrete per-repo open-PR oracle for the fan-out witness. -/
def listOpenPRsW : String → String → Except String (List PullRequest) :=
  fun _ r => if r = "rbad" then .error "404 not found"
    else if r = "r1" then .ok [prByUser, prByOther] else .ok []

/-- Witness for C5: across `["octo/r1", "octo/rbad", "octo/r2"]` with the
middle repo failing, the aggregates hold exactly the succeeding repos'
records, tagged with their repo names. -/
theorem fanout_single_failure_spec_witness :
    searchRecentCommitsByUser getCommitsW "mike" ["octo/r1", "octo/rbad", "octo/r2"] =
      (["octo/r1", "octo/r2"]).flatMap
        (fun r => ((if r = "octo/r1" then [cmFirst] else [cmLast]).map
          (fun cm => { cm with repo := r }))) ∧
    searchActivePRsByUser listOpenPRsW "mike" ["octo/r1", "octo/rbad", "octo/r2"] =
      (["octo/r1", "octo/r2"]).flatMap
        (fun r => ((getActivePullRequests (if r = "octo/r1" then [prByUser, prByOther] else []) "mike").map
          (fun pr => { pr with repo := r }))) :=
  fanout_single_failure_spec getCommitsW listOpenPRsW "mike"
    ["octo/r1"] ["octo/r2"] "octo/rbad" "octo" "rbad" "404 not found" "404 not found"
    (fun _ => "octo") (fun r => if r = "octo/r1" then "r1" else "r2")
    (fun r => if r = "octo/r1" then [cmFirst] else [cmLast])
    (fun r => if r = "octo/r1" then [prByUser, prByOther] else [])
    (by decide) (by decide) (by decide) (by decide) (by decide) (by decide)

/-- C9: once the identity is resolved and the intent classified, any failure
of the fetch phase and any failure of the summarizer is returned as the
descriptive string produced by the catch block (the embedding is total, so no
exception escapes), and the catch block maps the error signal in source order:
a message containing `404` yields the missing-repository message; otherwise
one containing `401` or `403` yields the credential-problem message; otherwise
one containing `rate limit` yields the try-again-later message; any other
message is wrapped in the generic message containing the raw error text. -/
theorem error_message_mapping_spec (env : Env) (now : Int) (c : Cache CachePayload)
    (q : String) (user : User) (msg : String)
    (huser : findUserInQuery q = some user) :
    ((fetchPhase env now c (classifyIntent env q) user).result = .error msg →
      (handleAIQuery env now c q).answer = handleQueryError msg) ∧
    (∀ js ps cs, (fetchPhase env now c (classifyIntent env q) user).result = .ok (js, ps, cs) →
      ¬(js.length = 0 ∧ ps.length = 0 ∧ cs.length = 0) →
      env.summarize (summaryPrompt q user (buildDataContext
        (if js.length > 0 then js.map (decorateIssue now) else js) ps
        (if cs.length > 0 then cs.map (decorateCommit now) else cs))) = .error msg →
      (handleAIQuery env now c q).answer = handleQueryError msg) ∧
    (stringIncludes msg "404" = true →
      handleQueryError msg =
        "Sorry, I couldn\x27t find one or more repositories. The user might not have access to some repos.") ∧
    (stringIncludes msg "404" = false →
      (stringIncludes msg "401" || stringIncludes msg "403") = true →
      handleQueryError msg =
        "Authentication error: Please check your API credentials in the .env file.") ∧
    (stringIncludes msg "404" = false →
      (stringIncludes msg "401" || stringIncludes msg "403") = false →
      stringIncludes msg "rate limit" = true →
      handleQueryError msg = "API rate limit exceeded. Please try again in a few minutes.") ∧
    (stringIncludes msg "404" = false →
      (stringIncludes msg "401" || stringIncludes msg "403") = false →
      stringIncludes msg "rate limit" = false →
      handleQueryError msg = "An error occurred while fetching data: " ++ msg) := by
  refine ⟨fun hf => ?_, fun js ps cs hf hne hsum => ?_, fun h1 => ?_, fun h1 h2 => ?_,
    fun h1 h2 h3 => ?_, fun h1 h2 h3 => ?_⟩
  · simp only [handleAIQuery, huser, hf]
  · simp only [handleAIQuery, huser, hf]
    rw [if_neg hne]
    simp only [hsum]
  · simp [handleQueryError, h1]
  · simp [handleQueryError, h1, h2]
  · simp [handleQueryError, h1, h2, h3]
  · simp [handleQueryError, h1, h2, h3]

/-- Environment for the C9 witness: the JIRA connector fails with a 404. -/
def envJira404 : Env :=
  { classify := fun _ => .ok "JIRA", summarize := fun _ => .ok "SUMMARY",
    jiraApi := fun _ => .error "HTTP 404 not found",
    prsApi := fun _ => .ok [], commitsApi := fun _ => .ok [] }

/-- Witness for C9: a 404 from the JIRA connector surfaces as the
missing-repository message, not as a raised error. -/
theorem error_message_mapping_spec_witness :
    (handleAIQuery envJira404 0 emptyCache "what is mike working on").answer =
      handleQueryError "HTTP 404 not found" ∧
    handleQueryError "HTTP 404 not found" =
      "Sorry, I couldn\x27t find one or more repositories. The user might not have access to some repos." :=
  ⟨(error_message_mapping_spec envJira404 0 emptyCache "what is mike working on" mikeUser
      "HTTP 404 not found" (by decide)).1 (by decide),
   (error_message_mapping_spec envJira404 0 emptyCache "what is mike working on" mikeUser
      "HTTP 404 not found" (by decide)).2.2.1 (by decide)⟩

/-- Reduction of the fetch phase at intent `COMMITS`. -/
lemma fetchPhase_commits_eq (env : Env) (now : Int) (c : Cache CachePayload) (user : User) :
    fetchPhase env now c "COMMITS" user =
      (match fetchCommitsData env now c user.githubId with
       | (.ok xs, c₁, n) => { result := .ok ([], [], xs), cache := c₁, commitCalls := n }
       | (.error e, c₁, n) => { result := .error e, cache := c₁, commitCalls := n }) := by
  simp [fetchPhase]

/-- C8: when the classified intent is `COMMITS`, any data context handed to
the summarizer has no JIRA section and no PR section — only the commits
section can be present, even if the identity has active issues and reviews
(they are simply never fetched). -/
theorem commits_intent_scoping (env : Env) (now : Int) (c : Cache CachePayload) (q : String)
    (hintent : classifyIntent env q = "COMMITS") :
    ∀ ctx, (handleAIQuery env now c q).context = some ctx →
      ctx.jiraSection = none ∧ ctx.prSection = none := by
  intro ctx hctx
  cases hu : findUserInQuery q with
  | none => simp [handleAIQuery, hu] at hctx
  | some user =>
    simp only [handleAIQuery, hu, hintent, fetchPhase_commits_eq] at hctx
    rcases hfc : fetchCommitsData env now c user.githubId with ⟨res, c₁, n⟩
    rcases res with e | xs
    · simp [hfc] at hctx
    · simp only [hfc] at hctx
      split at hctx
      · simp at hctx
      · split at hctx <;> (simp at hctx; subst hctx; simp [buildDataContext])

/-- The commit fetched in the C8 witness run. -/
def cmBuild : Commit := { message := "fix build", authorDate := some 0 }

/-- `cmBuild` after Step-5 decoration at read time 0. -/
def cmBuildDecorated : Commit :=
  { message := "fix build", authorDate := some 0, repo := "", relativeTime := some "just now" }

/-- Environment for the C8 witness: intent classifies as `COMMITS` and the
commits connector returns one commit. -/
def envCommitsIntent : Env :=
  { classify := fun _ => .ok "COMMITS", summarize := fun _ => .ok "SUMMARY",
    jiraApi := fun _ => .ok [], prsApi := fun _ => .ok [],
    commitsApi := fun _ => .ok [cmBuild] }

/-- The data context produced for the C8 witness run. -/
def ctxCommitsOnly : DataContext :=
  { jiraSection := none, prSection := none, commitSection := some [cmBuildDecorated] }

/-- Witness for C8 at a concrete run whose context holds only commits. -/
theorem commits_intent_scoping_witness :
    ctxCommitsOnly.jiraSection = none ∧ ctxCommitsOnly.prSection = none :=
  commits_intent_scoping envCommitsIntent 0 emptyCache "what did mike commit"
    (by decide) ctxCommitsOnly (by decide)

section CacheKeys

/-- `jira_*` keys never collide with `commits_*` keys. -/
lemma jira_ne_commits (a b : String) : ("jira_" ++ a : String) ≠ "commits_" ++ b := by
  intro h
  have h' := congrArg String.data h
  rw [String.data_append, String.data_append] at h'
  have hx : ("jira_" : String).data = ['j','i','r','a','_'] := rfl
  have hy : ("commits_" : String).data = ['c','o','m','m','i','t','s','_'] := rfl
  rw [hx, hy] at h'
  simp at h'

/-- `jira_*` keys never collide with `prs_*` keys. -/
lemma jira_ne_prs (a b : String) : ("jira_" ++ a : String) ≠ "prs_" ++ b := by
  intro h
  have h' := congrArg String.data h
  rw [String.data_append, String.data_append] at h'
  have hx : ("jira_" : String).data = ['j','i','r','a','_'] := rfl
  have hy : ("prs_" : String).data = ['p','r','s','_'] := rfl
  rw [hx, hy] at h'
  simp at h'

/-- `prs_*` keys never collide with `jira_*` keys. -/
lemma prs_ne_jira (a b : String) : ("prs_" ++ a : String) ≠ "jira_" ++ b :=
  fun h => jira_ne_prs b a h.symm

/-- `prs_*` keys never collide with `commits_*` keys. -/
lemma prs_ne_commits (a b : String) : ("prs_" ++ a : String) ≠ "commits_" ++ b := by
  intro h
  have h' := congrArg String.data h
  rw [String.data_append, String.data_append] at h'
  have hx : ("prs_" : String).data = ['p','r','s','_'] := rfl
  have hy : ("commits_" : String).data = ['c','o','m','m','i','t','s','_'] := rfl
  rw [hx, hy] at h'
  simp at h'

/-- `commits_*` keys never collide with `jira_*` keys. -/
lemma commits_ne_jira (a b : String) : ("commits_" ++ a : String) ≠ "jira_" ++ b :=
  fun h => jira_ne_commits b a h.symm

/-- `commits_*` keys never collide with `prs_*` keys. -/
lemma commits_ne_prs (a b : String) : ("commits_" ++ a : String) ≠ "prs_" ++ b :=
  fun h => prs_ne_commits b a h.symm

end CacheKeys

/-- On a cold cache whose three relevant upstream results are all empty, the
fetch phase returns three empty collections whatever the intent label is. -/
lemma fetchPhase_all_empty (env : Env) (now : Int) (c : Cache CachePayload)
    (intent : String) (user : User)
    (hc : ∀ k, c k = none)
    (hj : env.jiraApi user.jiraId = .ok [])
    (hp : env.prsApi user.githubId = .ok [])
    (hcm : env.commitsApi user.githubId = .ok []) :
    (fetchPhase env now c intent user).result = .ok ([], [], []) := by
  by_cases h1 : intent = "JIRA"
  · simp [fetchPhase, h1, fetchJiraData, getCachedData, hc, hj]
  · by_cases h2 : intent = "COMMITS"
    · simp [fetchPhase, h1, h2, fetchCommitsData, getCachedData, hc, hcm]
    · by_cases h3 : intent = "PRS"
      · simp [fetchPhase, h1, h2, h3, fetchPRsData, getCachedData, hc, hp]
      · simp [fetchPhase, h1, h2, h3, fetchJiraData, fetchPRsData, fetchCommitsData,
          getCachedData, setCachedData, hc, hj, hp, hcm, prs_ne_jira, commits_ne_jira,
          commits_ne_prs]

/-- Environment for the C1 counterexample and witness: every upstream
collection is empty and the Gemini oracle is reachable. -/
def envIdle : Env :=
  { classify := fun _ => .ok "FULL_SUMMARY", summarize := fun _ => .ok "SUMMARY",
    jiraApi := fun _ => .ok [], prsApi := fun _ => .ok [], commitsApi := fun _ => .ok [] }

/-- Counterexample to C1 as stated: on an identity with zero issues, zero
commits and zero reviews the orchestrator does return the templated
no-activity message, but the summarizer collaborator (the Gemini model, which
the spec says serves both intent classification and the final summary) is
still invoked once during the query — by intent classification — so "does not
invoke the summarizer collaborator at any point during that query" fails. -/
theorem noActivity_claim_counterexample :
    (handleAIQuery envIdle 0 emptyCache "what is mike working on").answer =
      noActivityMessage mikeUser ∧
    (handleAIQuery envIdle 0 emptyCache "what is mike working on").trace.classifyCalls +
      (handleAIQuery envIdle 0 emptyCache "what is mike working on").trace.summaryCalls = 1 :=
  ⟨by decide, by decide⟩

/-- C1 (amended): for an identity with zero issues, zero commits and zero
reviews, `handleAIQuery` returns the templated no-activity message and never
reaches the final summarization call; the summarizer collaborator is invoked
exactly once, by intent classification. -/
theorem noActivity_skips_final_summarizer (env : Env) (now : Int) (c : Cache CachePayload)
    (q : String) (user : User)
    (huser : findUserInQuery q = some user)
    (hc : ∀ k, c k = none)
    (hj : env.jiraApi user.jiraId = .ok [])
    (hp : env.prsApi user.githubId = .ok [])
    (hcm : env.commitsApi user.githubId = .ok []) :
    (handleAIQuery env now c q).answer = noActivityMessage user ∧
    (handleAIQuery env now c q).trace.summaryCalls = 0 ∧
    (handleAIQuery env now c q).trace.classifyCalls = 1 := by
  have hres := fetchPhase_all_empty env now c (classifyIntent env q) user hc hj hp hcm
  refine ⟨?_, ?_, ?_⟩ <;> simp [handleAIQuery, huser, hres]

/-- Witness for C1 (amended) at a concrete all-empty run. -/
theorem noActivity_skips_final_summarizer_witness :
    (handleAIQuery envIdle 5000 emptyCache "any update from sarah").answer =
      noActivityMessage sarahUser ∧
    (handleAIQuery envIdle 5000 emptyCache "any update from sarah").trace.summaryCalls = 0 ∧
    (handleAIQuery envIdle 5000 emptyCache "any update from sarah").trace.classifyCalls = 1 :=
  noActivity_skips_final_summarizer envIdle 5000 emptyCache "any update from sarah" sarahUser
    (by decide) (fun _ => rfl) rfl rfl rfl

section Undecorated

/-- No record of a cached payload carries the `relativeTime` display field. -/
def payloadUndecorated : CachePayload → Prop
  | .issues xs => ∀ i ∈ xs, i.relativeTime = none
  | .commits xs => ∀ cm ∈ xs, cm.relativeTime = none
  | .prs xs => ∀ pr ∈ xs, pr.relativeTime = none

/-- Every entry of the cache holds an undecorated payload. -/
def cacheUndecorated (c : Cache CachePayload) : Prop :=
  ∀ k e, c k = some e → payloadUndecorated e.data

/-- The upstream connectors return records without a `relativeTime` field, as
the JIRA client's record construction and the GitHub REST payloads do. -/
def envRaw (env : Env) : Prop :=
  (∀ id xs, env.jiraApi id = .ok xs → ∀ i ∈ xs, i.relativeTime = none) ∧
  (∀ id xs, env.prsApi id = .ok xs → ∀ pr ∈ xs, pr.relativeTime = none) ∧
  (∀ id xs, env.commitsApi id = .ok xs → ∀ cm ∈ xs, cm.relativeTime = none)

/-- A cache read (including its lazy deletion) preserves undecoratedness. -/
lemma getCached_undec (now : Int) (c : Cache CachePayload) (key : String)
    (hc : cacheUndecorated c) : cacheUndecorated (getCachedData now c key).2 := by
  unfold getCachedData
  cases hck : c key with
  | none => simp only [hck]; exact hc
  | some e =>
    simp only [hck]
    by_cases hex : now - e.timestamp > CACHE_TTL
    · rw [if_pos hex]
      intro k e' hke'
      have h2 : (if k = key then none else c k) = some e' := hke'
      by_cases hk : k = key
      · rw [if_pos hk] at h2
        exact absurd h2 (by simp)
      · rw [if_neg hk] at h2
        exact hc k e' h2
    · rw [if_neg hex]
      exact hc

/-- A cache write of an undecorated payload preserves undecoratedness. -/
lemma setCached_undec (now : Int) (c : Cache CachePayload) (key : String)
    (data : CachePayload) (hc : cacheUndecorated c) (hd : payloadUndecorated data) :
    cacheUndecorated (setCachedData now c key data) := by
  intro k e h
  have h2 : (if k = key then some (⟨data, now⟩ : CacheEntry CachePayload) else c k) = some e := h
  by_cases hk : k = key
  · rw [if_pos hk] at h2
    cases h2
    exact hd
  · rw [if_neg hk] at h2
    exact hc k e h2

/-- `fetchJiraData` keeps the cache undecorated. -/
lemma fetchJiraData_undec (env : Env) (now : Int) (c : Cache CachePayload) (id : String)
    (hc : cacheUndecorated c)
    (hraw : ∀ i xs, env.jiraApi i = .ok xs → ∀ x ∈ xs, x.relativeTime = none) :
    cacheUndecorated (fetchJiraData env now c id).2.1 := by
  unfold fetchJiraData
  rcases hg : getCachedData now c ("jira_" ++ id) with ⟨payload, c₁⟩
  have hc₁ : cacheUndecorated c₁ := by
    have h := getCached_undec now c ("jira_" ++ id) hc
    rw [hg] at h
    exact h
  cases payload with
  | some p => simpa [hg] using hc₁
  | none =>
    cases ha : env.jiraApi id with
    | ok data =>
      simp only [hg, ha]
      exact setCached_undec now c₁ _ _ hc₁ (hraw id data ha)
    | error e => simpa [hg, ha] using hc₁

/-- `fetchPRsData` keeps the cache undecorated. -/
lemma fetchPRsData_undec (env : Env) (now : Int) (c : Cache CachePayload) (id : String)
    (hc : cacheUndecorated c)
    (hraw : ∀ i xs, env.prsApi i = .ok xs → ∀ x ∈ xs, x.relativeTime = none) :
    cacheUndecorated (fetchPRsData env now c id).2.1 := by
  unfold fetchPRsData
  rcases hg : getCachedData now c ("prs_" ++ id) with ⟨payload, c₁⟩
  have hc₁ : cacheUndecorated c₁ := by
    have h := getCached_undec now c ("prs_" ++ id) hc
    rw [hg] at h
    exact h
  cases payload with
  | some p => simpa [hg] using hc₁
  | none =>
    cases ha : env.prsApi id with
    | ok data =>
      simp only [hg, ha]
      exact setCached_undec now c₁ _ _ hc₁ (hraw id data ha)
    | error e => simpa [hg, ha] using hc₁

/-- `fetchCommitsData` keeps the cache undecorated. -/
lemma fetchCommitsData_undec (env : Env) (now : Int) (c : Cache CachePayload) (id : String)
    (hc : cacheUndecorated c)
    (hraw : ∀ i xs, env.commitsApi i = .ok xs → ∀ x ∈ xs, x.relativeTime = none) :
    cacheUndecorated (fetchCommitsData env now c id).2.1 := by
  unfold fetchCommitsData
  rcases hg : getCachedData now c ("commits_" ++ id) with ⟨payload, c₁⟩
  have hc₁ : cacheUndecorated c₁ := by
    have h := getCached_undec now c ("commits_" ++ id) hc
    rw [hg] at h
    exact h
  cases payload with
  | some p => simpa [hg] using hc₁
  | none =>
    cases ha : env.commitsApi id with
    | ok data =>
      simp only [hg, ha]
      exact setCached_undec now c₁ _ _ hc₁ (hraw id data ha)
    | error e => simpa [hg, ha] using hc₁

/-- The whole fetch phase keeps the cache undecorated. -/
lemma fetchPhase_undec (env : Env) (now : Int) (c : Cache CachePayload)
    (intent : String) (user : User) (hc : cacheUndecorated c) (hraw : envRaw env) :
    cacheUndecorated (fetchPhase env now c intent user).cache := by
  obtain ⟨hrj, hrp, hrc⟩ := hraw
  by_cases h1 : intent = "JIRA"
  · rcases hf : fetchJiraData env now c user.jiraId with ⟨res, c₁, n⟩
    have hcu : cacheUndecorated c₁ := by
      have h := fetchJiraData_undec env now c user.jiraId hc hrj
      rw [hf] at h
      exact h
    cases res <;> simpa [fetchPhase, h1, hf] using hcu
  · by_cases h2 : intent = "COMMITS"
    · rcases hf : fetchCommitsData env now c user.githubId with ⟨res, c₁, n⟩
      have hcu : cacheUndecorated c₁ := by
        have h := fetchCommitsData_undec env now c user.githubId hc hrc
        rw [hf] at h
        exact h
      cases res <;> simpa [fetchPhase, h1, h2, hf] using hcu
    · by_cases h3 : intent = "PRS"
      · rcases hf : fetchPRsData env now c user.githubId with ⟨res, c₁, n⟩
        have hcu : cacheUndecorated c₁ := by
          have h := fetchPRsData_undec env now c user.githubId hc hrp
          rw [hf] at h
          exact h
        cases res <;> simpa [fetchPhase, h1, h2, h3, hf] using hcu
      · rcases hf₁ : fetchJiraData env now c user.jiraId with ⟨res₁, c₁, n₁⟩
        have hcu₁ : cacheUndecorated c₁ := by
          have h := fetchJiraData_undec env now c user.jiraId hc hrj
          rw [hf₁] at h
          exact h
        cases res₁ with
        | error e => simpa [fetchPhase, h1, h2, h3, hf₁] using hcu₁
        | ok js =>
          rcases hf₂ : fetchPRsData env now c₁ user.githubId with ⟨res₂, c₂, n₂⟩
          have hcu₂ : cacheUndecorated c₂ := by
            have h := fetchPRsData_undec env now c₁ user.githubId hcu₁ hrp
            rw [hf₂] at h
            exact h
          cases res₂ with
          | error e => simpa [fetchPhase, h1, h2, h3, hf₁, hf₂] using hcu₂
          | ok ps =>
            rcases hf₃ : fetchCommitsData env now c₂ user.githubId with ⟨res₃, c₃, n₃⟩
            have hcu₃ : cacheUndecorated c₃ := by
              have h := fetchCommitsData_undec env now c₂ user.githubId hcu₂ hrc
              rw [hf₃] at h
              exact h
            cases res₃ <;> simpa [fetchPhase, h1, h2, h3, hf₁, hf₂, hf₃] using hcu₃

/-- Whenever the identity resolves, the cache after `handleAIQuery` is the
cache left by its fetch phase (the later steps never write the cache). -/
lemma handleAIQuery_cache_eq (env : Env) (now : Int) (c : Cache CachePayload)
    (q : String) (user : User) (hu : findUserInQuery q = some user) :
    (handleAIQuery env now c q).cache =
      (fetchPhase env now c (classifyIntent env q) user).cache := by
  simp only [handleAIQuery, hu]
  rcases hres : (fetchPhase env now c (classifyIntent env q) user).result with e | ⟨js, ps, cs⟩
  · simp [hres]
  · simp only [hres]
    split
    · rfl
    · split <;> rfl

/-- An undecorated payload read back as a PR list yields undecorated PRs. -/
lemma payloadUndecorated_toPRs (p : CachePayload) (h : payloadUndecorated p) :
    ∀ pr ∈ p.toPRs, pr.relativeTime = none := by
  cases p with
  | issues xs => intro pr hpr; simp [CachePayload.toPRs] at hpr
  | commits xs => intro pr hpr; simp [CachePayload.toPRs] at hpr
  | prs xs => exact h

/-- A cache read that returns data returns the data of a stored entry. -/
lemma getCachedData_some {α : Type} (now : Int) (c : Cache α) (key : String)
    (p : α) (c' : Cache α) (h : getCachedData now c key = (some p, c')) :
    ∃ e, c key = some e ∧ e.data = p := by
  unfold getCachedData at h
  cases hck : c key with
  | none => simp [hck] at h
  | some e =>
    simp only [hck] at h
    by_cases hex : now - e.timestamp > CACHE_TTL
    · rw [if_pos hex] at h
      simp at h
    · rw [if_neg hex] at h
      simp only [Prod.mk.injEq, Option.some.injEq] at h
      exact ⟨e, rfl, h.1⟩

/-- A successful `fetchPRsData` over an undecorated cache, against a connector
returning raw records, yields undecorated PRs. -/
lemma fetchPRsData_ok_undec (env : Env) (now : Int) (c : Cache CachePayload) (id : String)
    (ps : List PullRequest) (c' : Cache CachePayload) (n : Nat)
    (hc : cacheUndecorated c)
    (hraw : ∀ i xs, env.prsApi i = .ok xs → ∀ x ∈ xs, x.relativeTime = none)
    (h : fetchPRsData env now c id = (.ok ps, c', n)) :
    ∀ pr ∈ ps, pr.relativeTime = none := by
  unfold fetchPRsData at h
  rcases hg : getCachedData now c ("prs_" ++ id) with ⟨payload, c₁⟩
  cases payload with
  | some p =>
    simp only [hg, Prod.mk.injEq, Except.ok.injEq] at h
    obtain ⟨e, hce, hed⟩ := getCachedData_some now c ("prs_" ++ id) p c₁ hg
    have hu := hc _ e hce
    rw [hed] at hu
    rw [← h.1]
    exact payloadUndecorated_toPRs p hu
  | none =>
    cases ha : env.prsApi id with
    | ok data =>
      simp only [hg, ha, Prod.mk.injEq, Except.ok.injEq] at h
      rw [← h.1]
      exact hraw id data ha
    | error e => simp [hg, ha] at h

/-- Whatever the intent, the PR collection of a successful fetch phase over an
undecorated cache with raw connectors holds only undecorated PRs. -/
lemma fetchPhase_prs_undec (env : Env) (now : Int) (c : Cache CachePayload)
    (intent : String) (user : User) (js : List Issue) (ps : List PullRequest)
    (cs : List Commit) (hc : cacheUndecorated c) (hraw : envRaw env)
    (hres : (fetchPhase env now c intent user).result = .ok (js, ps, cs)) :
    ∀ pr ∈ ps, pr.relativeTime = none := by
  obtain ⟨hrj, hrp, hrc⟩ := hraw
  by_cases h1 : intent = "JIRA"
  · subst h1
    unfold fetchPhase at hres
    rw [if_pos (show ("JIRA" : String) = "JIRA" from rfl)] at hres
    rcases hf : fetchJiraData env now c user.jiraId with ⟨res, c₁, n⟩
    rcases res with e | xs
    · simp [hf] at hres
    · simp only [hf, Except.ok.injEq, Prod.mk.injEq] at hres
      rw [← hres.2.1]
      intro pr hpr
      simp at hpr
  · by_cases h2 : intent = "COMMITS"
    · subst h2
      unfold fetchPhase at hres
      rw [if_neg (by decide : ¬("COMMITS" : String) = "JIRA")] at hres
      rw [if_pos (show ("COMMITS" : String) = "COMMITS" from rfl)] at hres
      rcases hf : fetchCommitsData env now c user.githubId with ⟨res, c₁, n⟩
      rcases res with e | xs
      · simp [hf] at hres
      · simp only [hf, Except.ok.injEq, Prod.mk.injEq] at hres
        rw [← hres.2.1]
        intro pr hpr
        simp at hpr
    · by_cases h3 : intent = "PRS"
      · subst h3
        unfold fetchPhase at hres
        rw [if_neg (by decide : ¬("PRS" : String) = "JIRA")] at hres
        rw [if_neg (by decide : ¬("PRS" : String) = "COMMITS")] at hres
        rw [if_pos (show ("PRS" : String) = "PRS" from rfl)] at hres
        rcases hf : fetchPRsData env now c user.githubId with ⟨res, c₁, n⟩
        rcases res with e | xs
        · simp [hf] at hres
        · simp only [hf, Except.ok.injEq, Prod.mk.injEq] at hres
          rw [← hres.2.1]
          exact fetchPRsData_ok_undec env now c user.githubId xs c₁ n hc hrp hf
      · unfold fetchPhase at hres
        rw [if_neg h1, if_neg h2, if_neg h3] at hres
        rcases hf₁ : fetchJiraData env now c user.jiraId with ⟨res₁, c₁, n₁⟩
        rcases res₁ with e | js'
        · simp [hf₁] at hres
        · have hcu₁ : cacheUndecorated c₁ := by
            have h := fetchJiraData_undec env now c user.jiraId hc hrj
            rw [hf₁] at h
            exact h
          rcases hf₂ : fetchPRsData env now c₁ user.githubId with ⟨res₂, c₂, n₂⟩
          rcases res₂ with e | ps'
          · simp [hf₁, hf₂] at hres
          · rcases hf₃ : fetchCommitsData env now c₂ user.githubId with ⟨res₃, c₃, n₃⟩
            rcases res₃ with e | cs'
            · simp [hf₁, hf₂, hf₃] at hres
            · simp only [hf₁, hf₂, hf₃, Except.ok.injEq, Prod.mk.injEq] at hres
              rw [← hres.2.1]
              exact fetchPRsData_ok_undec env now c₁ user.githubId ps' c₂ n₂ hcu₁ hrp hf₂

end Undecorated

/-- A pull request fetched in the C2 counterexample run. -/
def prSample : PullRequest :=
  { title := "Add feature", userLogin := some "mikeross88", state := "open", repo := "o/r" }

/-- Environment for the C2 counterexample: intent classifies as `PRS` and the
PR connector returns one PR (with no `relativeTime`, as the REST payload). -/
def envPRsIntent : Env :=
  { classify := fun _ => .ok "PRS", summarize := fun _ => .ok "SUMMARY",
    jiraApi := fun _ => .ok [], prsApi := fun _ => .ok [prSample],
    commitsApi := fun _ => .ok [] }

/-- Counterexample to C2 as stated: in a run whose context contains a fetched
review/PR record, that record carries no `relativeTime` field — Step 5 of
`handleAIQuery` decorates only issues and commits, never PRs — so "every
fetched activity record of each of the three shapes gains a derived
relativeTime field" fails for the review/PR shape. -/
theorem relativeTime_pr_counterexample :
    (handleAIQuery envPRsIntent 0 emptyCache "show me mike recent pull requests").context =
      some { jiraSection := none, prSection := some [prSample], commitSection := none } ∧
    prSample.relativeTime = none :=
  ⟨by decide, by decide⟩

/-- C2 (amended): at assembly time every fetched issue gains
`relativeTime = getRelativeTime(now, lastUpdated)` and every fetched commit
gains `relativeTime` derived from its optional author date (or `"unknown"`),
both against the read-time clock; review/PR records are handed to the context
undecorated; and — provided the connectors return raw records, as they do —
no payload stored in the cache ever carries a `relativeTime` field. -/
theorem relativeTime_decoration_spec (env : Env) (now : Int) (c : Cache CachePayload)
    (q : String) (hraw : envRaw env) (hc : cacheUndecorated c) :
    (∀ ctx, (handleAIQuery env now c q).context = some ctx →
      (∀ xs, ctx.jiraSection = some xs →
        ∀ i ∈ xs, i.relativeTime = some (getRelativeTime now i.lastUpdated)) ∧
      (∀ xs, ctx.commitSection = some xs →
        ∀ cm ∈ xs, cm.relativeTime = some (commitRelTime now cm.authorDate)) ∧
      (∀ xs, ctx.prSection = some xs → ∀ pr ∈ xs, pr.relativeTime = none)) ∧
    cacheUndecorated (handleAIQuery env now c q).cache := by
  constructor
  · intro ctx hctx
    cases hu : findUserInQuery q with
    | none => simp [handleAIQuery, hu] at hctx
    | some user =>
      simp only [handleAIQuery, hu] at hctx
      rcases hres : (fetchPhase env now c (classifyIntent env q) user).result with e | ⟨js, ps, cs⟩
      · simp [hres] at hctx
      · simp only [hres] at hctx
        split at hctx
        · simp at hctx
        · split at hctx <;> simp only [Option.some.injEq] at hctx <;> subst hctx <;>
            refine ⟨fun xs hxs => ?_, fun xs hxs => ?_, fun xs hxs => ?_⟩
          · by_cases hjs : js.length > 0
            · simp only [buildDataContext, if_pos hjs, List.length_map, if_pos hjs,
                Option.some.injEq] at hxs
              subst hxs
              intro i hi
              rcases List.mem_map.mp hi with ⟨i₀, _, rfl⟩
              simp [decorateIssue]
            · simp [buildDataContext, if_neg hjs, Nat.pos_iff_ne_zero] at hxs
              simp [Nat.not_lt, Nat.le_zero] at hjs
              simp [hjs] at hxs
          · by_cases hcs : cs.length > 0
            · simp only [buildDataContext, if_pos hcs, List.length_map, if_pos hcs,
                Option.some.injEq] at hxs
              subst hxs
              intro cm hcm
              rcases List.mem_map.mp hcm with ⟨cm₀, _, rfl⟩
              simp [decorateCommit]
            · simp [Nat.not_lt, Nat.le_zero] at hcs
              simp [buildDataContext, hcs] at hxs
          · by_cases hps : ps.length > 0
            · simp only [buildDataContext, if_pos hps, Option.some.injEq] at hxs
              subst hxs
              exact fetchPhase_prs_undec env now c (classifyIntent env q) user js ps cs
                hc hraw hres
            · simp [Nat.not_lt, Nat.le_zero] at hps
              simp [buildDataContext, hps] at hxs
          · by_cases hjs : js.length > 0
            · simp only [buildDataContext, if_pos hjs, List.length_map, if_pos hjs,
                Option.some.injEq] at hxs
              subst hxs
              intro i hi
              rcases List.mem_map.mp hi with ⟨i₀, _, rfl⟩
              simp [decorateIssue]
            · simp [Nat.not_lt, Nat.le_zero] at hjs
              simp [buildDataContext, hjs] at hxs
          · by_cases hcs : cs.length > 0
            · simp only [buildDataContext, if_pos hcs, List.length_map, if_pos hcs,
                Option.some.injEq] at hxs
              subst hxs
              intro cm hcm
              rcases List.mem_map.mp hcm with ⟨cm₀, _, rfl⟩
              simp [decorateCommit]
            · simp [Nat.not_lt, Nat.le_zero] at hcs
              simp [buildDataContext, hcs] at hxs
          · by_cases hps : ps.length > 0
            · simp only [buildDataContext, if_pos hps, Option.some.injEq] at hxs
              subst hxs
              exact fetchPhase_prs_undec env now c (classifyIntent env q) user js ps cs
                hc hraw hres
            · simp [Nat.not_lt, Nat.le_zero] at hps
              simp [buildDataContext, hps] at hxs
  · cases hu : findUserInQuery q with
    | none => simpa [handleAIQuery, hu] using hc
    | some user =>
      rw [handleAIQuery_cache_eq env now c q user hu]
      exact fetchPhase_undec env now c (classifyIntent env q) user hc hraw

/-- The issue fetched in the C2 witness run (as the JIRA client builds it:
no `relativeTime`). -/
def issueSample : Issue :=
  { key := "TS-102", summary := "Fix login bug", status := "In Progress", issueType := "Bug",
    priority := "High", lastUpdated := 0, link := "https://jira.example/browse/TS-102" }

/-- `issueSample` after Step-5 decoration at read time 7200000 (two hours
after `lastUpdated`). -/
def issueDecorated : Issue :=
  { key := "TS-102", summary := "Fix login bug", status := "In Progress", issueType := "Bug",
    priority := "High", lastUpdated := 0, link := "https://jira.example/browse/TS-102",
    relativeTime := some "2 hours ago" }

/-- Environment for the C2 witness: intent classifies as `JIRA` and the JIRA
connector returns one raw issue. -/
def envIssueOne : Env :=
  { classify := fun _ => .ok "JIRA", summarize := fun _ => .ok "SUMMARY",
    jiraApi := fun _ => .ok [issueSample], prsApi := fun _ => .ok [],
    commitsApi := fun _ => .ok [] }

/-- `envIssueOne` returns raw (undecorated) records. -/
lemma envIssueOne_raw : envRaw envIssueOne :=
  ⟨fun _ xs h => by
      injection h with h'
      subst h'
      intro x hx
      simp at hx
      subst hx
      rfl,
   fun _ xs h => by
      injection h with h'
      subst h'
      intro x hx
      simp at hx,
   fun _ xs h => by
      injection h with h'
      subst h'
      intro x hx
      simp at hx⟩

/-- The empty cache holds only undecorated payloads (vacuously). -/
lemma emptyCache_undec : cacheUndecorated (emptyCache (α := CachePayload)) :=
  fun _ _ h => by simp [emptyCache] at h

/-- The data context produced for the C2 witness run. -/
def ctxIssueOnly : DataContext :=
  { jiraSection := some [issueDecorated], prSection := none, commitSection := none }

/-- Witness for C2 (amended): in a concrete run two hours after the issue's
last update, the issue in the assembled context carries
`relativeTime = "2 hours ago"`, computed against the read-time clock. -/
theorem relativeTime_decoration_spec_witness :
    issueDecorated.relativeTime = some (getRelativeTime 7200000 issueDecorated.lastUpdated) :=
  ((relativeTime_decoration_spec envIssueOne 7200000 emptyCache
      "what jira tickets is mike working on" envIssueOne_raw emptyCache_undec).1
    ctxIssueOnly (by decide)).1 [issueDecorated] (by decide) issueDecorated (by decide)

section WarmCold

/-- A cache write is read back at its own key. -/
lemma setCachedData_self {α : Type} (t : Int) (c : Cache α) (key : String) (d : α) :
    setCachedData t c key d key = some ⟨d, t⟩ := by
  simp [setCachedData]

/-- A cache write leaves every other key untouched. -/
lemma setCachedData_other {α : Type} (t : Int) (c : Cache α) (key : String) (d : α)
    (k : String) (h : k ≠ key) : setCachedData t c key d k = c k := by
  simp [setCachedData, h]

/-- `fetchJiraData` on a cache miss: fetch upstream and write the key. -/
lemma fetchJiraData_miss (env : Env) (now : Int) (c : Cache CachePayload) (id : String)
    (js : List Issue) (hk : c ("jira_" ++ id) = none) (hj : env.jiraApi id = .ok js) :
    fetchJiraData env now c id =
      (.ok js, setCachedData now c ("jira_" ++ id) (.issues js), 1) := by
  simp [fetchJiraData, getCachedData, hk, hj]

/-- `fetchJiraData` on a fresh cache entry: served from the cache, no call. -/
lemma fetchJiraData_hit (env : Env) (now : Int) (c : Cache CachePayload) (id : String)
    (p : CachePayload) (ts : Int) (hk : c ("jira_" ++ id) = some ⟨p, ts⟩)
    (ht : ¬ now - ts > CACHE_TTL) :
    fetchJiraData env now c id = (.ok p.toIssues, c, 0) := by
  simp [fetchJiraData, getCachedData, hk, ht]

/-- `fetchPRsData` on a cache miss. -/
lemma fetchPRsData_miss (env : Env) (now : Int) (c : Cache CachePayload) (id : String)
    (ps : List PullRequest) (hk : c ("prs_" ++ id) = none) (hp : env.prsApi id = .ok ps) :
    fetchPRsData env now c id =
      (.ok ps, setCachedData now c ("prs_" ++ id) (.prs ps), 1) := by
  simp [fetchPRsData, getCachedData, hk, hp]

/-- `fetchPRsData` on a fresh cache entry. -/
lemma fetchPRsData_hit (env : Env) (now : Int) (c : Cache CachePayload) (id : String)
    (p : CachePayload) (ts : Int) (hk : c ("prs_" ++ id) = some ⟨p, ts⟩)
    (ht : ¬ now - ts > CACHE_TTL) :
    fetchPRsData env now c id = (.ok p.toPRs, c, 0) := by
  simp [fetchPRsData, getCachedData, hk, ht]

/-- `fetchCommitsData` on a cache miss. -/
lemma fetchCommitsData_miss (env : Env) (now : Int) (c : Cache CachePayload) (id : String)
    (cs : List Commit) (hk : c ("commits_" ++ id) = none) (hcm : env.commitsApi id = .ok cs) :
    fetchCommitsData env now c id =
      (.ok cs, setCachedData now c ("commits_" ++ id) (.commits cs), 1) := by
  simp [fetchCommitsData, getCachedData, hk, hcm]

/-- `fetchCommitsData` on a fresh cache entry. -/
lemma fetchCommitsData_hit (env : Env) (now : Int) (c : Cache CachePayload) (id : String)
    (p : CachePayload) (ts : Int) (hk : c ("commits_" ++ id) = some ⟨p, ts⟩)
    (ht : ¬ now - ts > CACHE_TTL) :
    fetchCommitsData env now c id = (.ok p.toCommits, c, 0) := by
  simp [fetchCommitsData, getCachedData, hk, ht]

/-- The cache state after a cold `FULL_SUMMARY` fetch phase at time `t`:
all three kind-prefixed keys written. -/
def cacheFull (t : Int) (c : Cache CachePayload) (user : User)
    (js : List Issue) (ps : List PullRequest) (cs : List Commit) : Cache CachePayload :=
  setCachedData t
    (setCachedData t
      (setCachedData t c ("jira_" ++ user.jiraId) (.issues js))
      ("prs_" ++ user.githubId) (.prs ps))
    ("commits_" ++ user.githubId) (.commits cs)

/-- Cold fetch phase at intent `JIRA`. -/
lemma fetchPhase_cold_jira (env : Env) (t : Int) (c : Cache CachePayload) (user : User)
    (js : List Issue) (hc : ∀ k, c k = none) (hj : env.jiraApi user.jiraId = .ok js) :
    fetchPhase env t c "JIRA" user =
      { result := .ok (js, [], []),
        cache := setCachedData t c ("jira_" ++ user.jiraId) (.issues js),
        jiraCalls := 1 } := by
  unfold fetchPhase
  rw [if_pos (show ("JIRA" : String) = "JIRA" from rfl)]
  rw [fetchJiraData_miss env t c user.jiraId js (hc _) hj]

/-- Warm fetch phase at intent `JIRA` within the TTL window. -/
lemma fetchPhase_warm_jira (env : Env) (t₁ t₂ : Int) (c : Cache CachePayload) (user : User)
    (js : List Issue) (ht : t₂ - t₁ ≤ CACHE_TTL) :
    fetchPhase env t₂ (setCachedData t₁ c ("jira_" ++ user.jiraId) (.issues js)) "JIRA" user =
      { result := .ok (js, [], []),
        cache := setCachedData t₁ c ("jira_" ++ user.jiraId) (.issues js) } := by
  unfold fetchPhase
  rw [if_pos (show ("JIRA" : String) = "JIRA" from rfl)]
  rw [fetchJiraData_hit env t₂ _ user.jiraId (.issues js) t₁ (setCachedData_self t₁ c _ _)
    (not_lt.mpr ht)]
  rfl

/-- Cold fetch phase at intent `COMMITS`. -/
lemma fetchPhase_cold_commits (env : Env) (t : Int) (c : Cache CachePayload) (user : User)
    (cs : List Commit) (hc : ∀ k, c k = none) (hcm : env.commitsApi user.githubId = .ok cs) :
    fetchPhase env t c "COMMITS" user =
      { result := .ok ([], [], cs),
        cache := setCachedData t c ("commits_" ++ user.githubId) (.commits cs),
        commitCalls := 1 } := by
  unfold fetchPhase
  rw [if_neg (by decide : ¬("COMMITS" : String) = "JIRA")]
  rw [if_pos (show ("COMMITS" : String) = "COMMITS" from rfl)]
  rw [fetchCommitsData_miss env t c user.githubId cs (hc _) hcm]

/-- Warm fetch phase at intent `COMMITS` within the TTL window. -/
lemma fetchPhase_warm_commits (env : Env) (t₁ t₂ : Int) (c : Cache CachePayload) (user : User)
    (cs : List Commit) (ht : t₂ - t₁ ≤ CACHE_TTL) :
    fetchPhase env t₂ (setCachedData t₁ c ("commits_" ++ user.githubId) (.commits cs))
        "COMMITS" user =
      { result := .ok ([], [], cs),
        cache := setCachedData t₁ c ("commits_" ++ user.githubId) (.commits cs) } := by
  unfold fetchPhase
  rw [if_neg (by decide : ¬("COMMITS" : String) = "JIRA")]
  rw [if_pos (show ("COMMITS" : String) = "COMMITS" from rfl)]
  rw [fetchCommitsData_hit env t₂ _ user.githubId (.commits cs) t₁
    (setCachedData_self t₁ c _ _) (not_lt.mpr ht)]
  rfl

/-- Cold fetch phase at intent `PRS`. -/
lemma fetchPhase_cold_prs (env : Env) (t : Int) (c : Cache CachePayload) (user : User)
    (ps : List PullRequest) (hc : ∀ k, c k = none) (hp : env.prsApi user.githubId = .ok ps) :
    fetchPhase env t c "PRS" user =
      { result := .ok ([], ps, []),
        cache := setCachedData t c ("prs_" ++ user.githubId) (.prs ps),
        prCalls := 1 } := by
  unfold fetchPhase
  rw [if_neg (by decide : ¬("PRS" : String) = "JIRA")]
  rw [if_neg (by decide : ¬("PRS" : String) = "COMMITS")]
  rw [if_pos (show ("PRS" : String) = "PRS" from rfl)]
  rw [fetchPRsData_miss env t c user.githubId ps (hc _) hp]

/-- Warm fetch phase at intent `PRS` within the TTL window. -/
lemma fetchPhase_warm_prs (env : Env) (t₁ t₂ : Int) (c : Cache CachePayload) (user : User)
    (ps : List PullRequest) (ht : t₂ - t₁ ≤ CACHE_TTL) :
    fetchPhase env t₂ (setCachedData t₁ c ("prs_" ++ user.githubId) (.prs ps)) "PRS" user =
      { result := .ok ([], ps, []),
        cache := setCachedData t₁ c ("prs_" ++ user.githubId) (.prs ps) } := by
  unfold fetchPhase
  rw [if_neg (by decide : ¬("PRS" : String) = "JIRA")]
  rw [if_neg (by decide : ¬("PRS" : String) = "COMMITS")]
  rw [if_pos (show ("PRS" : String) = "PRS" from rfl)]
  rw [fetchPRsData_hit env t₂ _ user.githubId (.prs ps) t₁ (setCachedData_self t₁ c _ _)
    (not_lt.mpr ht)]
  rfl

/-- Cold fetch phase at any non-special intent (the `FULL_SUMMARY` default
branch): all three kinds fetched and cached. -/
lemma fetchPhase_cold_full (env : Env) (t : Int) (c : Cache CachePayload) (user : User)
    (intent : String) (js : List Issue) (ps : List PullRequest) (cs : List Commit)
    (h1 : ¬ intent = "JIRA") (h2 : ¬ intent = "COMMITS") (h3 : ¬ intent = "PRS")
    (hc : ∀ k, c k = none)
    (hj : env.jiraApi user.jiraId = .ok js)
    (hp : env.prsApi user.githubId = .ok ps)
    (hcm : env.commitsApi user.githubId = .ok cs) :
    fetchPhase env t c intent user =
      { result := .ok (js, ps, cs), cache := cacheFull t c user js ps cs,
        jiraCalls := 1, prCalls := 1, commitCalls := 1 } := by
  unfold fetchPhase
  rw [if_neg h1, if_neg h2, if_neg h3]
  simp only [fetchJiraData_miss env t c user.jiraId js (hc _) hj]
  simp only [fetchPRsData_miss env t
    (setCachedData t c ("jira_" ++ user.jiraId) (.issues js)) user.githubId ps
    (by rw [setCachedData_other _ _ _ _ _ (prs_ne_jira _ _)]; exact hc _) hp]
  simp only [fetchCommitsData_miss env t
    (setCachedData t (setCachedData t c ("jira_" ++ user.jiraId) (.issues js))
      ("prs_" ++ user.githubId) (.prs ps)) user.githubId cs
    (by rw [setCachedData_other _ _ _ _ _ (commits_ne_prs _ _),
            setCachedData_other _ _ _ _ _ (commits_ne_jira _ _)]; exact hc _) hcm]
  rfl

/-- Warm fetch phase at any non-special intent over the cache left by a cold
`FULL_SUMMARY` run within the TTL window: three hits, no upstream call. -/
lemma fetchPhase_warm_full (env : Env) (t₁ t₂ : Int) (c : Cache CachePayload) (user : User)
    (intent : String) (js : List Issue) (ps : List PullRequest) (cs : List Commit)
    (h1 : ¬ intent = "JIRA") (h2 : ¬ intent = "COMMITS") (h3 : ¬ intent = "PRS")
    (ht : t₂ - t₁ ≤ CACHE_TTL) :
    fetchPhase env t₂ (cacheFull t₁ c user js ps cs) intent user =
      { result := .ok (js, ps, cs), cache := cacheFull t₁ c user js ps cs } := by
  unfold fetchPhase
  rw [if_neg h1, if_neg h2, if_neg h3]
  simp only [fetchJiraData_hit env t₂ (cacheFull t₁ c user js ps cs) user.jiraId (.issues js) t₁
    (by unfold cacheFull
        rw [setCachedData_other _ _ _ _ _ (jira_ne_commits _ _),
            setCachedData_other _ _ _ _ _ (jira_ne_prs _ _), setCachedData_self])
    (not_lt.mpr ht)]
  simp only [fetchPRsData_hit env t₂ (cacheFull t₁ c user js ps cs) user.githubId (.prs ps) t₁
    (by unfold cacheFull
        rw [setCachedData_other _ _ _ _ _ (prs_ne_commits _ _), setCachedData_self])
    (not_lt.mpr ht)]
  simp only [fetchCommitsData_hit env t₂ (cacheFull t₁ c user js ps cs) user.githubId
    (.commits cs) t₁
    (by unfold cacheFull
        rw [setCachedData_self])
    (not_lt.mpr ht)]
  rfl

/-- When the fetch phase succeeds with a non-empty aggregate, the run's trace
records the fetch-phase connector calls, the one classification call and the
one final-summary call. -/
lemma handleAIQuery_trace_of_nonempty (env : Env) (now : Int) (c : Cache CachePayload)
    (q : String) (user : User) (js : List Issue) (ps : List PullRequest) (cs : List Commit)
    (ch : Cache CachePayload) (nj np ncm : Nat)
    (hu : findUserInQuery q = some user)
    (hf : fetchPhase env now c (classifyIntent env q) user =
      { result := .ok (js, ps, cs), cache := ch,
        jiraCalls := nj, prCalls := np, commitCalls := ncm })
    (hne : ¬(js.length = 0 ∧ ps.length = 0 ∧ cs.length = 0)) :
    (handleAIQuery env now c q).trace =
      { jiraCalls := nj, prCalls := np, commitCalls := ncm,
        classifyCalls := 1, summaryCalls := 1 } := by
  simp only [handleAIQuery, hu, hf]
  rw [if_neg hne]
  split <;> rfl

end WarmCold

/-- The collections relevant to an intent label are not all empty (the
condition under which a run proceeds past the no-activity template). -/
def neededNonempty (intent : String) (js : List Issue) (ps : List PullRequest)
    (cs : List Commit) : Prop :=
  if intent = "JIRA" then js ≠ []
  else if intent = "COMMITS" then cs ≠ []
  else if intent = "PRS" then ps ≠ []
  else ¬(js = [] ∧ ps = [] ∧ cs = [])

/-- Environment for the C6 counterexample: reachable oracles, all upstream
collections empty. -/
def envQuiet : Env :=
  { classify := fun _ => .ok "FULL_SUMMARY", summarize := fun _ => .ok "SUMMARY",
    jiraApi := fun _ => .ok [], prsApi := fun _ => .ok [], commitsApi := fun _ => .ok [] }

/-- Counterexample to C6 as stated: for the repeated identical question about
an identity with no activity, the second invocation within the TTL window does
perform zero upstream connector calls (the empty lists are cache hits), but it
does not invoke the summarizer for the final answer — the no-activity template
answers instead (`summaryCalls = 0`), so "but still invokes the summarizer for
the final answer" fails. -/
theorem repeat_query_counterexample :
    (handleAIQuery envQuiet 1000
        (handleAIQuery envQuiet 0 emptyCache "what is mike working on").cache
        "what is mike working on").trace =
      { jiraCalls := 0, prCalls := 0, commitCalls := 0, classifyCalls := 1,
        summaryCalls := 0 } := by
  decide

/-- C6 (amended): for two invocations within one TTL window whose questions
resolve to the same identity and classify to the same intent, starting from a
cold cache, the second invocation performs zero upstream connector calls —
each cache key is derived only from the data kind and the relevant
system-specific identifier, never from the question text — and, provided the
data relevant to the intent is non-empty (so that the no-activity template is
not taken), still invokes the summarizer once for the final answer. -/
theorem repeat_query_cache_spec (env : Env) (t₁ t₂ : Int) (c₀ : Cache CachePayload)
    (q₁ q₂ : String) (user : User) (js : List Issue) (ps : List PullRequest)
    (cs : List Commit)
    (hu₁ : findUserInQuery q₁ = some user)
    (hu₂ : findUserInQuery q₂ = some user)
    (hint : classifyIntent env q₂ = classifyIntent env q₁)
    (hc₀ : ∀ k, c₀ k = none)
    (hj : env.jiraApi user.jiraId = .ok js)
    (hp : env.prsApi user.githubId = .ok ps)
    (hcm : env.commitsApi user.githubId = .ok cs)
    (ht : t₂ - t₁ ≤ CACHE_TTL)
    (hne : neededNonempty (classifyIntent env q₁) js ps cs) :
    (handleAIQuery env t₂ (handleAIQuery env t₁ c₀ q₁).cache q₂).trace =
      { jiraCalls := 0, prCalls := 0, commitCalls := 0, classifyCalls := 1,
        summaryCalls := 1 } := by
  by_cases h1 : classifyIntent env q₁ = "JIRA"
  · have hcache₁ : (handleAIQuery env t₁ c₀ q₁).cache =
        setCachedData t₁ c₀ ("jira_" ++ user.jiraId) (.issues js) := by
      rw [handleAIQuery_cache_eq env t₁ c₀ q₁ user hu₁, h1,
        fetchPhase_cold_jira env t₁ c₀ user js hc₀ hj]
    have hjs : js ≠ [] := by
      rw [h1] at hne
      unfold neededNonempty at hne
      rwa [if_pos rfl] at hne
    rw [hcache₁]
    exact handleAIQuery_trace_of_nonempty env t₂ _ q₂ user js [] []
      (setCachedData t₁ c₀ ("jira_" ++ user.jiraId) (.issues js)) 0 0 0 hu₂
      (by rw [hint, h1]; exact fetchPhase_warm_jira env t₁ t₂ c₀ user js ht)
      (fun h => hjs (List.length_eq_zero.mp h.1))
  · by_cases h2 : classifyIntent env q₁ = "COMMITS"
    · have hcache₁ : (handleAIQuery env t₁ c₀ q₁).cache =
          setCachedData t₁ c₀ ("commits_" ++ user.githubId) (.commits cs) := by
        rw [handleAIQuery_cache_eq env t₁ c₀ q₁ user hu₁, h2,
          fetchPhase_cold_commits env t₁ c₀ user cs hc₀ hcm]
      have hcs : cs ≠ [] := by
        rw [h2] at hne
        unfold neededNonempty at hne
        rw [if_neg (by decide : ¬("COMMITS" : String) = "JIRA")] at hne
        rwa [if_pos rfl] at hne
      rw [hcache₁]
      exact handleAIQuery_trace_of_nonempty env t₂ _ q₂ user [] [] cs
        (setCachedData t₁ c₀ ("commits_" ++ user.githubId) (.commits cs)) 0 0 0 hu₂
        (by rw [hint, h2]; exact fetchPhase_warm_commits env t₁ t₂ c₀ user cs ht)
        (fun h => hcs (List.length_eq_zero.mp h.2.2))
    · by_cases h3 : classifyIntent env q₁ = "PRS"
      · have hcache₁ : (handleAIQuery env t₁ c₀ q₁).cache =
            setCachedData t₁ c₀ ("prs_" ++ user.githubId) (.prs ps) := by
          rw [handleAIQuery_cache_eq env t₁ c₀ q₁ user hu₁, h3,
            fetchPhase_cold_prs env t₁ c₀ user ps hc₀ hp]
        have hps : ps ≠ [] := by
          rw [h3] at hne
          unfold neededNonempty at hne
          rw [if_neg (by decide : ¬("PRS" : String) = "JIRA")] at hne
          rw [if_neg (by decide : ¬("PRS" : String) = "COMMITS")] at hne
          rwa [if_pos rfl] at hne
        rw [hcache₁]
        exact handleAIQuery_trace_of_nonempty env t₂ _ q₂ user [] ps []
          (setCachedData t₁ c₀ ("prs_" ++ user.githubId) (.prs ps)) 0 0 0 hu₂
          (by rw [hint, h3]; exact fetchPhase_warm_prs env t₁ t₂ c₀ user ps ht)
          (fun h => hps (List.length_eq_zero.mp h.2.1))
      · have hcache₁ : (handleAIQuery env t₁ c₀ q₁).cache = cacheFull t₁ c₀ user js ps cs := by
          rw [handleAIQuery_cache_eq env t₁ c₀ q₁ user hu₁,
            fetchPhase_cold_full env t₁ c₀ user (classifyIntent env q₁) js ps cs h1 h2 h3
              hc₀ hj hp hcm]
        have hall : ¬(js = [] ∧ ps = [] ∧ cs = []) := by
          unfold neededNonempty at hne
          rw [if_neg h1, if_neg h2, if_neg h3] at hne
          exact hne
        have hint₂ : ¬ classifyIntent env q₂ = "JIRA" := by rw [hint]; exact h1
        have hint₃ : ¬ classifyIntent env q₂ = "COMMITS" := by rw [hint]; exact h2
        have hint₄ : ¬ classifyIntent env q₂ = "PRS" := by rw [hint]; exact h3
        rw [hcache₁]
        exact handleAIQuery_trace_of_nonempty env t₂ _ q₂ user js ps cs
          (cacheFull t₁ c₀ user js ps cs) 0 0 0 hu₂
          (fetchPhase_warm_full env t₁ t₂ c₀ user (classifyIntent env q₂) js ps cs
            hint₂ hint₃ hint₄ ht)
          (fun h => hall ⟨List.length_eq_zero.mp h.1, List.length_eq_zero.mp h.2.1,
            List.length_eq_zero.mp h.2.2⟩)

/-- The issue fetched in the C6 witness runs. -/
def busyIssue : Issue :=
  { key := "TS-7", summary := "Improve caching", status := "In Progress", issueType := "Task",
    priority := "Medium", lastUpdated := 0, link := "https://jira.example/browse/TS-7" }

/-- Environment for the C6 witness: intent classifies as `JIRA` and the JIRA
connector returns one issue. -/
def envBusy : Env :=
  { classify := fun _ => .ok "JIRA", summarize := fun _ => .ok "Mike is working on TS-7",
    jiraApi := fun _ => .ok [busyIssue], prsApi := fun _ => .ok [],
    commitsApi := fun _ => .ok [] }

/-- Witness for C6 (amended): two differently phrased questions about Mike,
one minute apart from a cold cache — the second run's trace shows zero
upstream calls and one final-summary call. -/
theorem repeat_query_cache_spec_witness :
    (handleAIQuery envBusy 60000
        (handleAIQuery envBusy 0 emptyCache "what jira tickets is mike working on").cache
        "show me the tickets of mike again").trace =
      { jiraCalls := 0, prCalls := 0, commitCalls := 0, classifyCalls := 1,
        summaryCalls := 1 } :=
  repeat_query_cache_spec envBusy 0 60000 emptyCache "what jira tickets is mike working on"
    "show me the tickets of mike again" mikeUser [busyIssue] [] []
    (by decide) (by decide) rfl (fun _ => rfl) rfl rfl rfl (by decide)
    (by
      unfold neededNonempty
      rw [show classifyIntent envBusy "what jira tickets is mike working on" = "JIRA" from rfl]
      rw [if_pos rfl]
      simp)

end AiTeamMonitor















